import Mathlib

/-!
Verification of the railway-doctor static-analysis scanner.

The TypeScript sources are embedded shallowly: file contents are `String`s,
the file system is an explicit read-only oracle (`Project`), every check is a
pure Lean function translated from the corresponding TypeScript function, and
the JavaScript regular expressions used by the checks are modelled by
explicit character-list scanners with the same matching semantics (leftmost
match, `/g` iteration resuming after the end of each match, greedy character
classes).  JavaScript `\s` and `\w` are modelled by their ASCII subsets, which
is exact for all the pattern strings the scanner searches for.
-/

namespace RailwayDoctor

/-- ASCII white space, modelling the JavaScript `\s` character class
(the non-ASCII members of `\s` never occur in the scanned patterns). -/
def isJsWs (c : Char) : Bool :=
  c = ' ' || c = '\t' || c = '\n' || c = '\r' || c = '\x0b' || c = '\x0c'

/-- The JavaScript `\w` word-character class `[A-Za-z0-9_]`. -/
def isWordChar (c : Char) : Bool :=
  c.isAlphanum || c = '_'

/-- Split off a maximal run of white space; returns its length and the rest. -/
def skipWs : List Char → Nat × List Char
  | [] => (0, [])
  | c :: rest =>
    if isJsWs c then
      let (n, r) := skipWs rest
      (n + 1, r)
    else (0, c :: rest)

/-- Split off a maximal run of decimal digits (the greedy `\d+`). -/
def takeDigits : List Char → List Char × List Char
  | [] => ([], [])
  | c :: rest =>
    if c.isDigit then
      let (d, r) := takeDigits rest
      (c :: d, r)
    else ([], c :: rest)

/-- Numeric value of a digit run, modelling JavaScript `parseInt` on `\d+`. -/
def digitsVal (ds : List Char) : Nat :=
  ds.foldl (fun a c => a * 10 + (c.toNat - 48)) 0

/-- Substring occurrence on character lists (JavaScript `String.includes`). -/
def subSeq (pat : List Char) : List Char → Bool
  | [] => pat.isEmpty
  | c :: rest => pat.isPrefixOf (c :: rest) || subSeq pat rest

/-- JavaScript `haystack.includes(needle)`. -/
def strContains (s pat : String) : Bool :=
  subSeq pat.data s.data

/-- JavaScript `toLowerCase` (exact on the ASCII text the scanner
compares). -/
def lowerStr (s : String) : String :=
  String.mk (s.data.map Char.toLower)

/-- Case-insensitive containment (a `/i` regular expression with no
metacharacters), via `toLowerCase` on both sides. -/
def strContainsCI (s pat : String) : Bool :=
  strContains (lowerStr s) (lowerStr pat)

/-- JavaScript `content.split("\n")` (keeps empty segments). -/
def splitLinesAux (cs : List Char) (acc : List Char) : List String :=
  match cs with
  | [] => [String.mk acc.reverse]
  | c :: rest =>
    if c = '\n' then String.mk acc.reverse :: splitLinesAux rest []
    else splitLinesAux rest (c :: acc)

def splitLines (s : String) : List String :=
  splitLinesAux s.data []

/-- Leftmost match of a pattern matcher `f`: try `f` on every suffix from the
left and return the first success (non-global JavaScript regex search). -/
def findFirst {α : Type} (f : List Char → Option α) : List Char → Option α
  | [] => none
  | c :: rest =>
    match f (c :: rest) with
    | some x => some x
    | none => findFirst f rest

/-- Like `findFirst` but also returns the index of the match. -/
def findFirstIdx {α : Type} (f : List Char → Option α) : List Char → Nat → Option (Nat × α)
  | [], _ => none
  | c :: rest, i =>
    match f (c :: rest) with
    | some x => some (i, x)
    | none => findFirstIdx f rest (i + 1)

/-- All matches of a matcher `f` that reports `(value, matchLength)`,
iterated like a JavaScript `/g` regex: resume after the end of each match,
advance one character after a failed position.  `fuel` bounds the recursion
and is instantiated with the list length (every step consumes at least one
character, and every matcher below consumes a positive length). -/
def globalMatchesAux {α : Type} (f : List Char → Option (α × Nat)) :
    Nat → List Char → Nat → List (Nat × α)
  | 0, _, _ => []
  | _ + 1, [], _ => []
  | fuel + 1, c :: rest, i =>
    match f (c :: rest) with
    | some (v, len) => (i, v) :: globalMatchesAux f fuel (List.drop len (c :: rest)) (i + len)
    | none => globalMatchesAux f fuel rest (i + 1)

/-- All `(index, value)` matches of `f` over `cs`, in left-to-right order. -/
def globalMatches {α : Type} (f : List Char → Option (α × Nat)) (cs : List Char) :
    List (Nat × α) :=
  globalMatchesAux f cs.length cs 0

/-- `1 +` the number of newlines before index `i`: the line number the source
computes as `code.substring(0, match.index).split("\n").length`. -/
def lineOfIndex (cs : List Char) (i : Nat) : Nat :=
  ((cs.take i).filter (fun c => c = '\n')).length + 1

/-- Matcher for `\.listen\s*\(\s*(\d+)` at the head of the input; returns the
captured port number and the matched length. -/
def matchListenNumAt (cs : List Char) : Option (Nat × Nat) :=
  if ".listen".data.isPrefixOf cs then
    let (w1, r1) := skipWs (cs.drop 7)
    match r1 with
    | '(' :: r2 =>
      let (w2, r3) := skipWs r2
      let (ds, _) := takeDigits r3
      if ds.isEmpty then none
      else some (digitsVal ds, 7 + w1 + 1 + w2 + ds.length)
    | _ => none
  else none

/-- All matches of the source regex `/\.listen\s*\(\s*(\d+)/g`. -/
def listenNumMatches (cs : List Char) : List (Nat × Nat) :=
  globalMatches matchListenNumAt cs

/-- Try the alternation `const|let|var` at the head; returns the keyword
length (JavaScript tries the branches left to right; they are disjoint). -/
def matchDeclKeywordAt (cs : List Char) : Option Nat :=
  if "const".data.isPrefixOf cs then some 5
  else if "let".data.isPrefixOf cs then some 3
  else if "var".data.isPrefixOf cs then some 3
  else none

/-- Matcher for `(?:const|let|var)\s+(\w*[pP]ort\w*)\s*=\s*(\d+)` at the head:
a declaration keyword, white space, a word run containing `port` or `Port`,
`=`, and a number.  Returns the number and the matched length. -/
def matchPortVarAt (cs : List Char) : Option (Nat × Nat) :=
  match matchDeclKeywordAt cs with
  | none => none
  | some klen =>
    let (w1, r1) := skipWs (cs.drop klen)
    if w1 = 0 then none
    else
      let wrun := r1.takeWhile isWordChar
      if subSeq "port".data wrun || subSeq "Port".data wrun then
        let (w2, r2) := skipWs (r1.drop wrun.length)
        match r2 with
        | '=' :: r3 =>
          let (w3, r4) := skipWs r3
          let (ds, _) := takeDigits r4
          if ds.isEmpty then none
          else some (digitsVal ds, klen + w1 + wrun.length + w2 + 1 + w3 + ds.length)
        | _ => none
      else none

/-- All matches of `/(?:const|let|var)\s+(\w*[pP]ort\w*)\s*=\s*(\d+)/g`. -/
def portVarMatches (cs : List Char) : List (Nat × Nat) :=
  globalMatches matchPortVarAt cs

/-- Matcher for `port\s*=\s*(\d+)` at the head of a `)`-free region; returns
the captured number and the matched length. -/
def matchPortKwargAt (cs : List Char) : Option (Nat × Nat) :=
  if "port".data.isPrefixOf cs then
    let (w1, r1) := skipWs (cs.drop 4)
    match r1 with
    | '=' :: r2 =>
      let (w2, r3) := skipWs r2
      let (ds, _) := takeDigits r3
      if ds.isEmpty then none
      else some (digitsVal ds, 4 + w1 + 1 + w2 + ds.length)
    | _ => none
  else none

/-- Matcher for `(?:app\.run|uvicorn\.run)\s*\([^)]*port\s*=\s*(\d+)` at the
head.  The greedy backtracking `[^)]*` selects the last `port = <digits>`
occurrence inside the `)`-free region following the opening parenthesis. -/
def matchPyRunPortAt (cs : List Char) : Option (Nat × Nat) :=
  let head : Option Nat :=
    if "app.run".data.isPrefixOf cs then some 7
    else if "uvicorn.run".data.isPrefixOf cs then some 11
    else none
  match head with
  | none => none
  | some hlen =>
    let (w1, r1) := skipWs (cs.drop hlen)
    match r1 with
    | '(' :: r2 =>
      let region := r2.takeWhile (fun c => c ≠ ')')
      match (globalMatches matchPortKwargAt region).getLast? with
      | some (off, v) =>
        -- recompute the matched length of the chosen occurrence
        match matchPortKwargAt (region.drop off) with
        | some (_, mlen) => some (v, hlen + w1 + 1 + off + mlen)
        | none => none
      | none => none
    | _ => none

/-- All matches of `/(?:app\.run|uvicorn\.run)\s*\([^)]*port\s*=\s*(\d+)/g`. -/
def pyRunPortMatches (cs : List Char) : List (Nat × Nat) :=
  globalMatches matchPyRunPortAt cs

/-- Test for `/\.listen\s*\(/`: `.listen`, optional white space, `(`. -/
def matchListenParenAt (cs : List Char) : Option Unit :=
  if ".listen".data.isPrefixOf cs then
    match (skipWs (cs.drop 7)).2 with
    | '(' :: _ => some ()
    | _ => none
  else none

/-- `/\.listen\s*\(/.test(code)`. -/
def listenCallTest (cs : List Char) : Bool :=
  (findFirst matchListenParenAt cs).isSome

/-- Test for `/(?:app\.run|uvicorn\.run|waitress\.serve)\s*\(/`. -/
def matchPyServerAt (cs : List Char) : Option Unit :=
  let head : Option Nat :=
    if "app.run".data.isPrefixOf cs then some 7
    else if "uvicorn.run".data.isPrefixOf cs then some 11
    else if "waitress.serve".data.isPrefixOf cs then some 14
    else none
  match head with
  | none => none
  | some hlen =>
    match (skipWs (cs.drop hlen)).2 with
    | '(' :: _ => some ()
    | _ => none

/-- `/(?:app\.run|uvicorn\.run|waitress\.serve)\s*\(/.test(code)`. -/
def pyServerCallTest (cs : List Char) : Bool :=
  (findFirst matchPyServerAt cs).isSome

/-- Matcher for `\.(?:listen|run)\s*\([^)]+\)` at the head: returns the
matched length ( `[^)]+` greedily runs to the first `)`, which must exist
and enclose at least one character). -/
def matchListenRunCallAt (cs : List Char) : Option Nat :=
  let head : Option Nat :=
    if ".listen".data.isPrefixOf cs then some 7
    else if ".run".data.isPrefixOf cs then some 4
    else none
  match head with
  | none => none
  | some hlen =>
    let (w1, r1) := skipWs (cs.drop hlen)
    match r1 with
    | '(' :: r2 =>
      let inner := r2.takeWhile (fun c => c ≠ ')')
      if inner.isEmpty then none
      else
        match r2.drop inner.length with
        | ')' :: _ => some (hlen + w1 + 1 + inner.length + 1)
        | _ => none
    | _ => none

/-- First match of `/\.(?:listen|run)\s*\([^)]+\)/`: `(index, length)`. -/
def firstListenRunCall (cs : List Char) : Option (Nat × Nat) :=
  findFirstIdx matchListenRunCallAt cs 0

/-- Matcher for `process\.env\.(\w+)` at the head: the variable name. -/
def matchJsEnvAt (cs : List Char) : Option (String × Nat) :=
  if "process.env.".data.isPrefixOf cs then
    let name := (cs.drop 12).takeWhile isWordChar
    if name.isEmpty then none
    else some (String.mk name, 12 + name.length)
  else none

/-- A quote character of the `['"]` class. -/
def isQuote (c : Char) : Bool :=
  c = '"' || c = '\x27'

/-- Matcher for `os\.(?:environ\.get|getenv)\(['"](\w+)['"]\)` at the head. -/
def matchPyEnvCallAt (cs : List Char) : Option (String × Nat) :=
  let head : Option Nat :=
    if "os.environ.get".data.isPrefixOf cs then some 14
    else if "os.getenv".data.isPrefixOf cs then some 9
    else none
  match head with
  | none => none
  | some hlen =>
    match cs.drop hlen with
    | '(' :: q1 :: r1 =>
      if isQuote q1 then
        let name := r1.takeWhile isWordChar
        if name.isEmpty then none
        else
          match r1.drop name.length with
          | q2 :: ')' :: _ =>
            if isQuote q2 then some (String.mk name, hlen + 2 + name.length + 2)
            else none
          | _ => none
      else none
    | _ => none

/-- Matcher for `os\.environ\[['"](\w+)['"]\]` at the head. -/
def matchPyEnvBracketAt (cs : List Char) : Option (String × Nat) :=
  if "os.environ[".data.isPrefixOf cs then
    match cs.drop 11 with
    | q1 :: r1 =>
      if isQuote q1 then
        let name := r1.takeWhile isWordChar
        if name.isEmpty then none
        else
          match r1.drop name.length with
          | q2 :: ']' :: _ =>
            if isQuote q2 then some (String.mk name, 11 + 1 + name.length + 2)
            else none
          | _ => none
      else none
    | [] => none
  else none

/-- All captured names of one of the environment-variable regexes. -/
def envNameMatches (f : List Char → Option (String × Nat)) (cs : List Char) : List String :=
  (globalMatches f cs).map (fun m => m.2)

/-- Matcher for `host\s*[:=]\s*['"]X['"]` (case-insensitive) at the head,
where `target` is the already lower-cased `X` and the input is the
lower-cased line. -/
def matchHostAssignAt (target : List Char) (cs : List Char) : Option Unit :=
  if "host".data.isPrefixOf cs then
    let (_, r1) := skipWs (cs.drop 4)
    match r1 with
    | c :: r2 =>
      if c = ':' || c = '=' then
        let (_, r3) := skipWs r2
        match r3 with
        | q1 :: r4 =>
          if isQuote q1 && target.isPrefixOf r4 then
            match r4.drop target.length with
            | q2 :: _ => if isQuote q2 then some () else none
            | [] => none
          else none
        | [] => none
      else none
    | [] => none
  else none

/-- `/host\s*[:=]\s*['"]<target>['"]/i.test(line)`. -/
def hostAssignTest (target : String) (line : String) : Bool :=
  (findFirst (matchHostAssignAt (lowerStr target).data) (lowerStr line).data).isSome

/-- Matcher for a quoted string `['"]([^'"]+)['"]` at the head (the quotes
need not match each other, exactly as in the source regex); returns the
unquoted content and the matched length. -/
def matchQuotedAt (cs : List Char) : Option (String × Nat) :=
  match cs with
  | q1 :: r1 =>
    if isQuote q1 then
      let inner := r1.takeWhile (fun c => !isQuote c)
      if inner.isEmpty then none
      else
        match r1.drop inner.length with
        | q2 :: _ => if isQuote q2 then some (String.mk inner, inner.length + 2) else none
        | [] => none
    else none
  | [] => none

/-- All quoted strings in a region: `inner.match(/['"]([^'"]+)['"]/g)`
followed by stripping the quotes. -/
def quotedStrings (cs : List Char) : List String :=
  (globalMatches matchQuotedAt cs).map (fun m => m.2)

/-- Matcher for `<key>\s*=\s*\[([^\]]*)\]` at the head (used with the `/s`
flag in the source, so the bracket content may span lines — `[^\]]*` crosses
newlines anyway); returns the bracket content. -/
def matchListAssignAt (key : List Char) (cs : List Char) : Option (List Char) :=
  if key.isPrefixOf cs then
    let (_, r1) := skipWs (cs.drop key.length)
    match r1 with
    | '=' :: r2 =>
      let (_, r3) := skipWs r2
      match r3 with
      | '[' :: r4 =>
        let inner := r4.takeWhile (fun c => c ≠ ']')
        match r4.drop inner.length with
        | ']' :: _ => some inner
        | _ => none
      | _ => none
    | _ => none
  else none

/-- First match of `/<key>\s*=\s*\[([^\]]*)\]/s`: the bracket content. -/
def findListAssign (key : String) (cs : List Char) : Option (List Char) :=
  findFirst (matchListAssignAt key.data) cs

/-- Matcher for `DEBUG\s*=\s*(True|False)` at the head. -/
def matchDebugAt (cs : List Char) : Option Bool :=
  if "DEBUG".data.isPrefixOf cs then
    let (_, r1) := skipWs (cs.drop 5)
    match r1 with
    | '=' :: r2 =>
      let (_, r3) := skipWs r2
      if "True".data.isPrefixOf r3 then some true
      else if "False".data.isPrefixOf r3 then some false
      else none
    | _ => none
  else none

/-- Matcher for `STATIC_ROOT\s*=` at the head. -/
def matchStaticRootAt (cs : List Char) : Option Unit :=
  if "STATIC_ROOT".data.isPrefixOf cs then
    match (skipWs (cs.drop 11)).2 with
    | '=' :: _ => some ()
    | _ => none
  else none

/-- Matcher for `app\s*=\s*<ctor>\s*\(` at the head (`ctor` is `Flask` or
`FastAPI`). -/
def matchAppCtorAt (ctor : List Char) (cs : List Char) : Option Unit :=
  if "app".data.isPrefixOf cs then
    let (_, r1) := skipWs (cs.drop 3)
    match r1 with
    | '=' :: r2 =>
      let (_, r3) := skipWs r2
      if ctor.isPrefixOf r3 then
        match (skipWs (r3.drop ctor.length)).2 with
        | '(' :: _ => some ()
        | _ => none
      else none
    | _ => none
  else none

/-- `/app\s*=\s*<ctor>\s*\(/.test(content)`. -/
def appCtorTest (ctor : String) (content : String) : Bool :=
  (findFirst (matchAppCtorAt ctor.data) content.data).isSome

/-- Matcher for `debug\s*=\s*True` at the head of a `)`-free region. -/
def matchDebugKwargAt (cs : List Char) : Option Unit :=
  if "debug".data.isPrefixOf cs then
    let (_, r1) := skipWs (cs.drop 5)
    match r1 with
    | '=' :: r2 =>
      if "True".data.isPrefixOf (skipWs r2).2 then some () else none
    | _ => none
  else none

/-- Matcher for `app\.run\([^)]*debug\s*=\s*True` at the head. -/
def matchFlaskDebugAt (cs : List Char) : Option Unit :=
  if "app.run(".data.isPrefixOf cs then
    let region := (cs.drop 8).takeWhile (fun c => c ≠ ')')
    if (findFirst matchDebugKwargAt region).isSome then some () else none
  else none

/-- `/app\.run\([^)]*debug\s*=\s*True/.test(content)`. -/
def flaskDebugTest (content : String) : Bool :=
  (findFirst matchFlaskDebugAt content.data).isSome

/-- Matcher for the per-line import regex
`^(?:from|import)\s+([a-zA-Z0-9_.]+)` (anchored at the line start). -/
def matchImportLine (cs : List Char) : Option String :=
  let head : Option Nat :=
    if "from".data.isPrefixOf cs then some 4
    else if "import".data.isPrefixOf cs then some 6
    else none
  match head with
  | none => none
  | some hlen =>
    let (w1, r1) := skipWs (cs.drop hlen)
    if w1 = 0 then none
    else
      let name := r1.takeWhile (fun c => c.isAlphanum || c = '_' || c = '.')
      if name.isEmpty then none else some (String.mk name)

/-! ## Data model (src/types.ts) -/

/-- `"error" | "warning" | "info"` from `types.ts`. -/
inductive Severity
  | error
  | warning
  | info
deriving DecidableEq, Repr

/-- The closed category union from `types.ts`. -/
inductive Category
  | port
  | host
  | startCommand
  | envVars
  | staticFiles
  | database
deriving DecidableEq, Repr

/-- `FixSuggestion` from `types.ts`. -/
structure FixSuggestion where
  description : String
  before : Option String := none
  after : Option String := none
  steps : Option (List String) := none
deriving DecidableEq, Repr

/-- `Issue` from `types.ts`. -/
structure Issue where
  id : String
  severity : Severity
  category : Category
  message : String
  file : Option String := none
  line : Option Nat := none
  fix : FixSuggestion
deriving DecidableEq, Repr

/-- `PassedCheck` from `types.ts` (`category` is an open string there). -/
structure PassedCheck where
  id : String
  category : String
  message : String
deriving DecidableEq, Repr

/-- Framework name union from `types.ts`. -/
inductive FrameworkName
  | express
  | nextjs
  | nestjs
  | django
  | flask
  | fastapi
  | unknown
deriving DecidableEq, Repr

/-- `Framework` from `types.ts`. -/
structure Framework where
  name : FrameworkName
  version : Option String := none
  mainFile : Option String := none
deriving DecidableEq, Repr

/-- The `deploymentLikelihood` union from `types.ts`. -/
inductive Likelihood
  | willFail
  | mightFail
  | shouldSucceed
deriving DecidableEq, Repr

/-- `Summary` from `types.ts`. -/
structure Summary where
  totalIssues : Nat
  errors : Nat
  warnings : Nat
  passed : Nat
  deploymentLikelihood : Likelihood
deriving DecidableEq, Repr

/-- `ScanResult` from `types.ts` (the scanner always sets `framework`). -/
structure ScanResult where
  projectPath : String
  framework : Framework
  issues : List Issue
  warnings : List Issue
  passed : List PassedCheck
  summary : Summary
deriving DecidableEq, Repr

/-- The result shape `{ issues, passed }` returned by the check modules. -/
structure CheckResult where
  issues : List Issue
  passed : List PassedCheck
deriving DecidableEq, Repr

/-! ## The file-system oracle

The scanner reads the project through `existsSync`, `readFileSync`, `glob`
and `JSON.parse` of the package manifest.  The spec treats the file system
as an external read-only oracle and the glob/read utilities as trivial
collaborators, so a `Project` records the outcome of each of those probes
directly.  The package manifest is only ever consumed through `JSON.parse`,
so it is stored in parsed form, with a `malformed` variant for content on
which `JSON.parse` throws. -/

/-- The fields of `package.json` the scanner consumes. -/
structure Manifest where
  dependencies : List (String × String) := []
  devDependencies : List (String × String) := []
  scriptsStart : Option String := none
  scriptsBuild : Option String := none
  main : Option String := none
deriving DecidableEq, Repr

/-- Outcome of `JSON.parse(readFileSync("package.json"))`. -/
inductive ManifestFile
  | malformed
  | parsed (m : Manifest)
deriving DecidableEq, Repr

/-- A project directory as the read-only oracle seen by one scan.  The glob
fields record the (ordered) results of the scanner's five distinct glob
invocations; the `Strict` source globs additionally ignore `*.test.*` and
`*.spec.*` (port and host checks), the `All` globs do not (env-var and
database checks). -/
structure Project where
  projectPath : String
  packageJson : Option ManifestFile := none
  requirementsTxt : Option String := none
  procfile : Option String := none
  gitignore : Option String := none
  dotEnvExists : Bool := false
  nextConfigJs : Bool := false
  nextConfigMjs : Bool := false
  managePyExists : Bool := false
  fileExists : String → Bool := fun _ => false
  readFile : String → Option String := fun _ => none
  jsGlobStrict : List String := []
  pyGlobStrict : List String := []
  jsGlobAll : List String := []
  pyGlobAll : List String := []
  settingsGlob : List String := []
  pyMainGlob : List String := []
  entryGlob : List String := []

/-- `path.join` for the flat relative names used by the scanner. -/
def pjoin (root rel : String) : String :=
  root ++ "/" ++ rel

/-- Lookup in the merged `{...dependencies, ...devDependencies}` object
(`devDependencies` win on a duplicate key). -/
def mergedDep (m : Manifest) (key : String) : Option String :=
  match m.devDependencies.lookup key with
  | some v => some v
  | none => m.dependencies.lookup key

/-- JavaScript truthiness of `deps[key]` (a missing key or the empty string
is falsy). -/
def depTruthy (m : Manifest) (key : String) : Bool :=
  match mergedDep m key with
  | some v => v ≠ ""
  | none => false

/-- JavaScript truthiness of an optional string value. -/
def strTruthy (s : Option String) : Bool :=
  match s with
  | some v => v ≠ ""
  | none => false

/-! ## Framework detection (src/scanner/fileDetector.ts) -/

/-- `findEntryPoint`: first existing candidate, else the manifest's `main`
field (parse errors swallowed), else the first result of the entry-point
glob (glob errors modelled as an empty result). -/
def findEntryPoint (p : Project) (candidates : List String) : Option String :=
  match candidates.find? (fun c => p.fileExists (pjoin p.projectPath c)) with
  | some c => some c
  | none =>
    let fromMain : Option String :=
      match p.packageJson with
      | some (ManifestFile.parsed m) =>
        match m.main with
        | some mn =>
          if mn ≠ "" && p.fileExists (pjoin p.projectPath mn) then some mn else none
        | none => none
      | _ => none
    match fromMain with
    | some mn => some mn
    | none => p.entryGlob.head?

/-- The Python half of `detectFramework`: the `requirements.txt` branch and
the final `unknown` fallback. -/
def detectPythonFramework (p : Project) : Framework :=
  match p.requirementsTxt with
  | some req =>
    let r := lowerStr req
    if strContains r "django" then
      { name := FrameworkName.django
        mainFile := if p.managePyExists then some "manage.py" else none }
    else if strContains r "flask" then
      { name := FrameworkName.flask
        mainFile := findEntryPoint p ["app.py", "main.py", "wsgi.py"] }
    else if strContains r "fastapi" then
      { name := FrameworkName.fastapi
        mainFile := findEntryPoint p ["main.py", "app.py"] }
    else { name := FrameworkName.unknown }
  | none => { name := FrameworkName.unknown }

/-- `detectFramework` from `fileDetector.ts`.  The source calls
`JSON.parse(readFileSync(packageJsonPath))` with no `try`/`catch`, so a
malformed manifest makes the parse error escape the function; the `.error`
result models that thrown exception. -/
def detectFramework (p : Project) : Except Unit Framework :=
  match p.packageJson with
  | some ManifestFile.malformed => Except.error ()
  | some (ManifestFile.parsed m) =>
    if depTruthy m "next" || p.nextConfigJs || p.nextConfigMjs then
      Except.ok
        { name := FrameworkName.nextjs
          version := mergedDep m "next"
          mainFile := some ((findEntryPoint p
            ["pages/_app.tsx", "pages/_app.js", "app/layout.tsx",
             "src/app/layout.tsx"]).getD "next.config.js") }
    else if depTruthy m "@nestjs/core" then
      Except.ok
        { name := FrameworkName.nestjs
          version := mergedDep m "@nestjs/core"
          mainFile := findEntryPoint p ["src/main.ts", "main.ts"] }
    else if depTruthy m "express" then
      Except.ok
        { name := FrameworkName.express
          version := mergedDep m "express"
          mainFile := findEntryPoint p
            ["server.js", "index.js", "app.js", "src/server.js",
             "src/index.js", "src/app.js", "server.ts", "src/server.ts"] }
    else Except.ok (detectPythonFramework p)
  | none => Except.ok (detectPythonFramework p)

/-- Source-file glob pattern selection shared by the multi-file checks:
Python projects scan `**/*.py`, everything else `**/*.{js,ts,jsx,tsx}`. -/
def isPythonFramework (n : FrameworkName) : Bool :=
  n = FrameworkName.django || n = FrameworkName.flask || n = FrameworkName.fastapi

/-- `["express", "nextjs", "nestjs"].includes(framework.name)`. -/
def isNodeFramework (n : FrameworkName) : Bool :=
  n = FrameworkName.express || n = FrameworkName.nextjs || n = FrameworkName.nestjs

/-! ## Port check (src/checks/portCheck.ts, multi-file variant) -/

/-- The `process.env.PORT` / `os.environ` reference tests that set
`hasPortEnvVar` in `scanFileForPortIssues`. -/
def portEnvVarRef (code : String) : Bool :=
  strContains code "process.env.PORT" ||
  strContains code "process.env[\x27PORT\x27]" ||
  strContains code "process.env[\"PORT\"]" ||
  strContains code "os.environ.get(\x27PORT\x27)" ||
  strContains code "os.environ.get(\"PORT\")" ||
  strContains code "os.getenv(\x27PORT\x27)" ||
  strContains code "os.getenv(\"PORT\")"

/-- First `(index, value)` match with `value >= 1000` — the loop body
`if (portNumber >= 1000) { ...; break; }`. -/
def firstGE1000 (ms : List (Nat × Nat)) : Option (Nat × Nat) :=
  ms.find? (fun m => 1000 ≤ m.2)

/-- `${hardcodedPortValue || "detected"}` (`0` is falsy in JavaScript). -/
def portValueText (v : Option Nat) : String :=
  match v with
  | some n => if n = 0 then "detected" else Nat.repr n
  | none => "detected"

/-- `${hardcodedPortValue || 3000}`. -/
def portFallbackText (v : Option Nat) : String :=
  match v with
  | some n => if n = 0 then "3000" else Nat.repr n
  | none => "3000"

/-- The `port-hardcoded` Issue record built by `scanFileForPortIssues`. -/
def portHardcodedIssue (file : String) (v : Option Nat) (line : Option Nat) : Issue :=
  { id := "port-hardcoded"
    severity := Severity.error
    category := Category.port
    message := "Hardcoded port " ++ portValueText v ++ ". Railway requires process.env.PORT"
    file := some file
    line := line
    fix :=
      { description := "Use process.env.PORT with a fallback for local development"
        before := some ("const port = " ++ portFallbackText v ++ ";")
        after := some ("const port = process.env.PORT || " ++ portFallbackText v ++ ";")
        steps := some
          ["Update your server to use: const port = process.env.PORT || " ++
             portFallbackText v,
           "Ensure your .listen() call uses this port variable"] } }

/-- `scanFileForPortIssues` from `portCheck.ts`: three detector loops feed a
single `hasHardcodedPort`/`hardcodedPortValue`/`listenCallLine` state (the
later loops overwrite the earlier values; the variable-assignment and Python
loops additionally require `!hasPortEnvVar` inside the loop body), then at
most one `port-hardcoded` issue is emitted when a hardcoded port was found
and no PORT environment reference exists. -/
def scanFileForPortIssues (code file : String) (_fw : Framework) : List Issue :=
  let hasPortEnvVar := portEnvVarRef code
  let r1 := firstGE1000 (listenNumMatches code.data)
  let r2 := if hasPortEnvVar then none else firstGE1000 (portVarMatches code.data)
  let r3 := if hasPortEnvVar then none else firstGE1000 (pyRunPortMatches code.data)
  match r3 <|> r2 <|> r1 with
  | some (idx, v) =>
    if hasPortEnvVar then []
    else [portHardcodedIssue file (some v) (some (lineOfIndex code.data idx))]
  | none => []

/-- The `nextjs-port-flag` Issue from `checkPortUsage`. -/
def nextjsPortFlagIssue : Issue :=
  { id := "nextjs-port-flag"
    severity := Severity.error
    category := Category.port
    message := "Next.js start script doesn\x27t use Railway\x27s PORT environment variable"
    file := some "package.json"
    fix :=
      { description := "Add PORT flag to Next.js start command"
        before := some "\"start\": \"next start\""
        after := some "\"start\": \"next start --port $\x7bPORT-3000\x7d\""
        steps := some
          ["Update package.json scripts.start to: \"next start --port $\x7bPORT-3000\x7d\""] } }

/-- The `port-check` PassedCheck. -/
def portCheckPass : PassedCheck :=
  { id := "port-check", category := "port", message := "PORT configuration looks good" }

/-- The Next.js manifest block of `checkPortUsage` (`JSON.parse` failures
and a missing manifest are swallowed by the `try`/`catch`). -/
def nextjsPortIssues (p : Project) (fw : Framework) : List Issue :=
  if fw.name = FrameworkName.nextjs then
    match p.packageJson with
    | some (ManifestFile.parsed m) =>
      let startScript := m.scriptsStart.getD ""
      if strContains startScript "next start" &&
         !strContains startScript "$PORT" &&
         !strContains startScript "$\x7bPORT" then
        [nextjsPortFlagIssue]
      else []
    | _ => []
  else []

/-- `checkPortUsage` from `portCheck.ts`: scan the first 50 glob results
(unreadable files skipped), then the Next.js manifest block; emit the pass
exactly when no issue was found anywhere. -/
def checkPortUsage (p : Project) (fw : Framework) : CheckResult :=
  let files := (if isPythonFramework fw.name then p.pyGlobStrict else p.jsGlobStrict).take 50
  let fileIssues := files.foldl
    (fun acc f =>
      match p.readFile (pjoin p.projectPath f) with
      | some code => acc ++ scanFileForPortIssues code f fw
      | none => acc) []
  let nxIssues := nextjsPortIssues p fw
  let issues := fileIssues ++ nxIssues
  { issues := issues
    passed := if issues.isEmpty then [portCheckPass] else [] }

/-! ## Host-binding check (src/checks/hostCheck.ts, multi-file variant) -/

/-- `hasCorrectBinding`: a `0.0.0.0` literal in double, single or backtick
quotes. -/
def hasCorrectBinding (code : String) : Bool :=
  strContains code "\"0.0.0.0\"" ||
  strContains code "\x270.0.0.0\x27" ||
  strContains code "\x600.0.0.0\x60"

/-- `hasLocalhostBinding`: a quoted `localhost` or `127.0.0.1` literal
(double or single quotes). -/
def hasLocalhostBinding (code : String) : Bool :=
  strContains code "\"localhost\"" ||
  strContains code "\x27localhost\x27" ||
  strContains code "\"127.0.0.1\"" ||
  strContains code "\x27127.0.0.1\x27"

/-- `generateHostBindingFix`: the per-framework fix table, with a fallback
that quotes the matched listen snippet. -/
def generateHostBindingFix (fw : Framework) (listenSnippet : Option String) : FixSuggestion :=
  match fw.name with
  | FrameworkName.express =>
    { description := "Bind to 0.0.0.0 to accept external connections"
      before := some "app.listen(port)"
      after := some "app.listen(port, \"0.0.0.0\")"
      steps := some
        ["Update your .listen() call to: app.listen(port, \"0.0.0.0\")",
         "This allows Railway to route traffic to your application"] }
  | FrameworkName.nestjs =>
    { description := "Bind to 0.0.0.0 in your NestJS bootstrap function"
      before := some "await app.listen(port)"
      after := some "await app.listen(port, \"0.0.0.0\")"
      steps := some
        ["In src/main.ts, update: await app.listen(port, \"0.0.0.0\")",
         "This allows Railway to route traffic to your application"] }
  | FrameworkName.nextjs =>
    { description := "Add --hostname flag to Next.js start command"
      before := some "\"start\": \"next start\""
      after := some "\"start\": \"next start --hostname 0.0.0.0\""
      steps := some
        ["Update package.json start script to include: --hostname 0.0.0.0"] }
  | FrameworkName.django =>
    { description := "Configure Django to bind to 0.0.0.0"
      after := some "gunicorn myproject.wsgi:application --bind 0.0.0.0:$PORT"
      steps := some
        ["Ensure your start command binds to 0.0.0.0:$PORT",
         "Example: gunicorn myproject.wsgi:application --bind 0.0.0.0:$PORT"] }
  | FrameworkName.flask =>
    { description := "Bind to 0.0.0.0 in Flask app"
      before := some "app.run()"
      after := some "app.run(host=\"0.0.0.0\", port=int(os.environ.get(\"PORT\", 5000)))"
      steps := some
        ["Update app.run() to bind to 0.0.0.0",
         "Use gunicorn in production instead of Flask development server"] }
  | FrameworkName.fastapi =>
    { description := "Bind to 0.0.0.0 in uvicorn"
      before := some "uvicorn.run(app)"
      after := some "uvicorn.run(app, host=\"0.0.0.0\", port=int(os.environ.get(\"PORT\", 8000)))"
      steps := some
        ["Update uvicorn.run() to bind to 0.0.0.0",
         "Use Procfile with proper uvicorn command in production"] }
  | FrameworkName.unknown =>
    { description := "Bind to 0.0.0.0 to accept external connections"
      before := some (listenSnippet.getD ".listen(port)")
      after := some ".listen(port, \"0.0.0.0\")"
      steps := some
        ["Update your server to listen on 0.0.0.0 instead of localhost",
         "This allows Railway to route traffic to your application"] }

/-- `scanFileForHostIssues` from the multi-file host check: a file with a
`.listen(` call (or a Python dev-server run call) and no explicit `0.0.0.0`
binding yields one `host-binding` issue, at error severity when a quoted
localhost/loopback literal is also present, else at warning severity. -/
def scanFileForHostIssues (code file : String) (fw : Framework) : List Issue :=
  let hasListenCall := listenCallTest code.data
  let hasPythonServerCall := pyServerCallTest code.data
  if (hasListenCall || hasPythonServerCall) && !hasCorrectBinding code then
    let m := firstListenRunCall code.data
    let listenLine := m.map (fun x => lineOfIndex code.data x.1)
    let listenSnippet := m.map (fun x => String.mk ((code.data.drop x.1).take x.2))
    let lh := hasLocalhostBinding code
    [{ id := "host-binding"
       severity := if lh then Severity.error else Severity.warning
       category := Category.host
       message :=
         if lh then "App binds to localhost/127.0.0.1, which won\x27t work on Railway"
         else "App may not be binding to 0.0.0.0, which is required for Railway"
       file := some file
       line := listenLine
       fix := generateHostBindingFix fw listenSnippet }]
  else []

/-- The `nextjs-host-flag` Issue from `checkHostBinding`. -/
def nextjsHostFlagIssue : Issue :=
  { id := "nextjs-host-flag"
    severity := Severity.error
    category := Category.host
    message := "Next.js start script doesn\x27t bind to 0.0.0.0"
    file := some "package.json"
    fix :=
      { description := "Add --hostname flag to Next.js start command"
        before := some "\"start\": \"next start\""
        after := some "\"start\": \"next start --hostname 0.0.0.0 --port $\x7bPORT-3000\x7d\""
        steps := some
          ["Update package.json scripts.start to include: --hostname 0.0.0.0"] } }

/-- The `host-check` PassedCheck. -/
def hostCheckPass : PassedCheck :=
  { id := "host-check", category := "host", message := "Host binding configuration looks good" }

/-- The Next.js manifest block of `checkHostBinding` (missing or malformed
manifests are swallowed). -/
def nextjsHostIssues (p : Project) (fw : Framework) : List Issue :=
  if fw.name = FrameworkName.nextjs then
    match p.packageJson with
    | some (ManifestFile.parsed m) =>
      let startScript := m.scriptsStart.getD ""
      if strContains startScript "next start" &&
         !strContains startScript "--hostname 0.0.0.0" &&
         !strContains startScript "-H 0.0.0.0" then
        [nextjsHostFlagIssue]
      else []
    | _ => []
  else []

/-- `checkHostBinding` (multi-file variant): scan the first 50 glob results,
then the Next.js manifest block; the pass is emitted exactly when
`foundHostIssues` stayed false, i.e. when no issue was produced. -/
def checkHostBinding (p : Project) (fw : Framework) : CheckResult :=
  let files := (if isPythonFramework fw.name then p.pyGlobStrict else p.jsGlobStrict).take 50
  let fileIssues := files.foldl
    (fun acc f =>
      match p.readFile (pjoin p.projectPath f) with
      | some code => acc ++ scanFileForHostIssues code f fw
      | none => acc) []
  let nxIssues := nextjsHostIssues p fw
  let issues := fileIssues ++ nxIssues
  { issues := issues
    passed := if issues.isEmpty then [hostCheckPass] else [] }

/-! ## Start-command check (src/checks/startCommandCheck.ts) -/

/-- `generateStartScriptFix`: fix table keyed by framework name. -/
def generateStartScriptFix (fw : Framework) : FixSuggestion :=
  match fw.name with
  | FrameworkName.express =>
    { description := "Add start script for Express"
      after := some "\"scripts\": \x7b\n  \"start\": \"node server.js\"\n\x7d"
      steps := some
        ["Add to package.json: \"start\": \"node server.js\"",
         "Replace server.js with your actual entry point file"] }
  | FrameworkName.nextjs =>
    { description := "Add start and build scripts for Next.js"
      after := some
        "\"scripts\": \x7b\n  \"start\": \"next start --hostname 0.0.0.0 --port $\x7bPORT-3000\x7d\",\n  \"build\": \"next build\"\n\x7d"
      steps := some
        ["Add start script: \"next start --hostname 0.0.0.0 --port $\x7bPORT-3000\x7d\"",
         "Add build script: \"next build\""] }
  | FrameworkName.nestjs =>
    { description := "Add start and build scripts for NestJS"
      after := some "\"scripts\": \x7b\n  \"start\": \"node dist/main.js\",\n  \"build\": \"nest build\"\n\x7d"
      steps := some
        ["Add start script: \"node dist/main.js\"",
         "Add build script: \"nest build\""] }
  | _ =>
    { description := "Add start script to package.json"
      after := some "\"scripts\": \x7b\n  \"start\": \"node index.js\"\n\x7d"
      steps := some ["Add a start script to package.json"] }

/-- `generateProductionStartScript`. -/
def generateProductionStartScript (fw : Framework) : String :=
  match fw.name with
  | FrameworkName.express => "\"start\": \"node server.js\""
  | FrameworkName.nextjs => "\"start\": \"next start --hostname 0.0.0.0 --port $\x7bPORT-3000\x7d\""
  | FrameworkName.nestjs => "\"start\": \"node dist/main.js\""
  | _ => "\"start\": \"node index.js\""

/-- `generatePythonProcfileFix`. -/
def generatePythonProcfileFix (fw : Framework) : FixSuggestion :=
  match fw.name with
  | FrameworkName.django =>
    { description := "Create Procfile for Django"
      after := some "web: gunicorn myproject.wsgi:application --bind 0.0.0.0:$PORT"
      steps := some
        ["Create a file named \x27Procfile\x27 (no extension)",
         "Add: web: gunicorn myproject.wsgi:application --bind 0.0.0.0:$PORT",
         "Replace \x27myproject\x27 with your Django project name"] }
  | FrameworkName.flask =>
    { description := "Create Procfile for Flask"
      after := some "web: gunicorn app:app --bind 0.0.0.0:$PORT"
      steps := some
        ["Create a file named \x27Procfile\x27 (no extension)",
         "Add: web: gunicorn app:app --bind 0.0.0.0:$PORT"] }
  | FrameworkName.fastapi =>
    { description := "Create Procfile for FastAPI"
      after := some "web: uvicorn main:app --host 0.0.0.0 --port $PORT"
      steps := some
        ["Create a file named \x27Procfile\x27 (no extension)",
         "Add: web: uvicorn main:app --host 0.0.0.0 --port $PORT"] }
  | _ =>
    { description := "Create Procfile"
      steps := some ["Create a Procfile with your start command"] }

/-- Issues of the Node branch of `checkStartCommand` for a parsed
manifest. -/
def nodeStartScriptIssues (packageJsonPath : String) (fw : Framework) (m : Manifest) :
    List Issue :=
  let startIssues : List Issue :=
    if !strTruthy m.scriptsStart then
      [{ id := "no-start-script"
         severity := Severity.error
         category := Category.startCommand
         message := "No \"start\" script found in package.json"
         file := some packageJsonPath
         fix := generateStartScriptFix fw }]
    else
      let s := m.scriptsStart.getD ""
      let devIssues : List Issue :=
        match ["nodemon", "ts-node-dev", "tsx --watch", "vite"].find?
            (fun tool => strContains s tool) with
        | some tool =>
          [{ id := "dev-tools-in-production"
             severity := Severity.error
             category := Category.startCommand
             message := "Start script uses development tool: " ++ tool
             file := some packageJsonPath
             fix :=
               { description := "Use production-ready start command"
                 before := some ("\"start\": \"" ++ s ++ "\"")
                 after := some (generateProductionStartScript fw)
                 steps := some
                   ["Remove development tools from start script",
                    "Use node (not nodemon/ts-node-dev) for production",
                    "If using TypeScript, build first then run with node"] } }]
        | none => []
      let nextIssues : List Issue :=
        if fw.name = FrameworkName.nextjs && !strContains s "next start" then
          [{ id := "nextjs-wrong-start"
             severity := Severity.error
             category := Category.startCommand
             message := "Next.js project should use \x27next start\x27 in production"
             file := some packageJsonPath
             fix :=
               { description := "Use next start for production"
                 before := some ("\"start\": \"" ++ s ++ "\"")
                 after := some "\"start\": \"next start --hostname 0.0.0.0 --port $\x7bPORT-3000\x7d\""
                 steps := some
                   ["Update start script to: \"next start --hostname 0.0.0.0 --port $\x7bPORT-3000\x7d\"",
                    "Ensure you have a build script: \"build\": \"next build\""] } }]
        else []
      let nestIssues : List Issue :=
        if fw.name = FrameworkName.nestjs && strContains s "nest start" &&
           !strContains s "nest start --watch" &&
           (!strTruthy m.scriptsBuild || !strContains (m.scriptsBuild.getD "") "nest build") then
          [{ id := "nestjs-no-build"
             severity := Severity.warning
             category := Category.startCommand
             message := "NestJS project should have a build script"
             file := some packageJsonPath
             fix :=
               { description := "Add build script for NestJS"
                 after := some "\"build\": \"nest build\""
                 steps := some ["Add to package.json scripts: \"build\": \"nest build\""] } }]
        else []
      devIssues ++ nextIssues ++ nestIssues
  let buildIssues : List Issue :=
    if fw.name = FrameworkName.nextjs && !strTruthy m.scriptsBuild then
      [{ id := "no-build-script"
         severity := Severity.error
         category := Category.startCommand
         message := "Next.js project missing build script"
         file := some packageJsonPath
         fix :=
           { description := "Add build script for Next.js"
             after := some "\"build\": \"next build\""
             steps := some ["Add to package.json scripts: \"build\": \"next build\""] } }]
    else []
  startIssues ++ buildIssues

/-- `checkStartCommand`: the Node branch (early return when the manifest is
missing, an `invalid-package-json` issue when parsing throws) followed by
the Python branch.  The two framework-family conditions are mutually
exclusive, so the sequential source blocks become an if/else chain; for the
`unknown` framework neither branch applies and the result is empty. -/
def checkStartCommand (p : Project) (fw : Framework) : List Issue :=
  if isNodeFramework fw.name then
    let packageJsonPath := pjoin p.projectPath "package.json"
    match p.packageJson with
    | none =>
      [{ id := "no-package-json"
         severity := Severity.error
         category := Category.startCommand
         message := "No package.json found"
         file := some packageJsonPath
         fix :=
           { description := "Create a package.json file"
             steps := some ["Run: npm init -y", "Add a start script to package.json"] } }]
    | some ManifestFile.malformed =>
      [{ id := "invalid-package-json"
         severity := Severity.error
         category := Category.startCommand
         message := "package.json is invalid or cannot be parsed"
         file := some packageJsonPath
         fix :=
           { description := "Fix package.json syntax"
             steps := some
               ["Validate JSON syntax in package.json",
                "Ensure all quotes and brackets are properly closed"] } }]
    | some (ManifestFile.parsed m) => nodeStartScriptIssues packageJsonPath fw m
  else if isPythonFramework fw.name then
    let procfilePath := pjoin p.projectPath "Procfile"
    let requirementsPath := pjoin p.projectPath "requirements.txt"
    let procfileIssues : List Issue :=
      match p.procfile with
      | none =>
        [{ id := "python-no-procfile"
           severity := Severity.warning
           category := Category.startCommand
           message := "Python project should have a Procfile for Railway"
           file := some procfilePath
           fix := generatePythonProcfileFix fw }]
      | some pf =>
        if fw.name = FrameworkName.django && !strContains pf "gunicorn" then
          [{ id := "django-no-gunicorn"
             severity := Severity.error
             category := Category.startCommand
             message := "Django should use gunicorn in production"
             file := some procfilePath
             fix :=
               { description := "Use gunicorn for Django production server"
                 after := some "web: gunicorn myproject.wsgi:application --bind 0.0.0.0:$PORT"
                 steps := some
                   ["Add gunicorn to requirements.txt",
                    "Create/update Procfile with gunicorn command"] } }]
        else []
    let reqIssues : List Issue :=
      match p.requirementsTxt with
      | some req =>
        if fw.name = FrameworkName.django && !strContains req "gunicorn" then
          [{ id := "django-no-gunicorn-requirement"
             severity := Severity.error
             category := Category.startCommand
             message := "gunicorn not found in requirements.txt"
             file := some requirementsPath
             fix :=
               { description := "Add gunicorn to requirements.txt"
                 after := some "gunicorn"
                 steps := some ["Add \x27gunicorn\x27 to requirements.txt"] } }]
        else []
      | none => []
    procfileIssues ++ reqIssues
  else []

/-! ## Environment-variable check (src/checks/envVarsCheck.ts) -/

/-- Names captured in one file by the three env-var regexes, in the order
the source's three `while` loops collect them. -/
def fileEnvNames (content : String) : List String :=
  envNameMatches matchJsEnvAt content.data ++
  envNameMatches matchPyEnvCallAt content.data ++
  envNameMatches matchPyEnvBracketAt content.data

/-- `Set.add`: JavaScript sets keep insertion order and drop duplicates. -/
def insertNew (l : List String) (x : String) : List String :=
  if x ∈ l then l else l ++ [x]

/-- `findEnvVarReferences`: the deduplicated names over the first 50 glob
results (unreadable files skipped, glob errors modelled as empty). -/
def findEnvVarReferences (p : Project) (fw : Framework) : List String :=
  let files := (if isPythonFramework fw.name then p.pyGlobAll else p.jsGlobAll).take 50
  files.foldl
    (fun acc f =>
      match p.readFile (pjoin p.projectPath f) with
      | some content => (fileEnvNames content).foldl insertNew acc
      | none => acc) []

/-- The `env-file-not-ignored` Issue. -/
def envFileNotIgnoredIssue (gitignorePath : String) : Issue :=
  { id := "env-file-not-ignored"
    severity := Severity.warning
    category := Category.envVars
    message := ".env file exists but is not in .gitignore (security risk)"
    file := some gitignorePath
    fix :=
      { description := "Add .env to .gitignore to prevent committing secrets"
        after := some ".env"
        steps := some
          ["Add \x27.env\x27 to your .gitignore file",
           "Never commit .env files to version control",
           "Use Railway environment variables instead"] } }

/-- The `env-file-ignored` PassedCheck. -/
def envFileIgnoredPass : PassedCheck :=
  { id := "env-file-ignored", category := "env-vars"
    message := ".env file is properly ignored in .gitignore" }

/-- The `no-env-file` PassedCheck. -/
def noEnvFilePass : PassedCheck :=
  { id := "no-env-file", category := "env-vars"
    message := "No .env file found (good - use Railway environment variables)" }

/-- The `env-vars-needed` informational Issue. -/
def envVarsNeededIssue (size : Nat) (otherVars : List String) : Issue :=
  { id := "env-vars-needed"
    severity := Severity.info
    category := Category.envVars
    message := "Found " ++ Nat.repr size ++ " environment variable" ++
      (if size > 1 then "s" else "") ++ " in your code"
    fix :=
      { description := "Set these environment variables in Railway"
        steps := some
          ["Environment variables detected: " ++
             String.intercalate ", " (otherVars.take 10) ++
             (if otherVars.length > 10 then "..." else ""),
           "Go to your Railway project settings",
           "Add each variable in the Variables section",
           "Railway will inject these at runtime"] } }

/-- The usage-inventory block of `checkEnvVars`: surface the referenced
variables outside the well-known allowlist and the npm-internal prefix as
one informational issue. -/
def envUsageIssues (p : Project) (fw : Framework) : List Issue :=
  let envVars := findEnvVarReferences p fw
  if envVars.length > 0 then
    let commonEnvVars := ["PORT", "NODE_ENV", "DATABASE_URL"]
    let otherVars := envVars.filter
      (fun v => !commonEnvVars.contains v && !strContains v "npm_")
    if otherVars.length > 0 then [envVarsNeededIssue envVars.length otherVars] else []
  else []

/-- `checkEnvVars`: the secrets-hygiene block (`.env` vs `.gitignore`), the
`no-env-file` pass when neither file exists, and the usage-inventory
informational issue. -/
def checkEnvVars (p : Project) (fw : Framework) : CheckResult :=
  let gitignorePath := pjoin p.projectPath ".gitignore"
  let hygiene : List Issue × List PassedCheck :=
    match p.gitignore, p.dotEnvExists with
    | some g, true =>
      if strContains g ".env" then ([], [envFileIgnoredPass])
      else ([envFileNotIgnoredIssue gitignorePath], [])
    | _, _ => ([], [])
  let noEnvPasses : List PassedCheck :=
    if !p.dotEnvExists && p.gitignore.isNone then [noEnvFilePass] else []
  { issues := hygiene.1 ++ envUsageIssues p fw
    passed := hygiene.2 ++ noEnvPasses }

/-! ## Database-config check (src/checks/databaseCheck.ts) -/

/-- The `dbLibs` mapping, in `Object.entries` (insertion) order. -/
def dbLibsTable : List (String × String) :=
  [("pg", "PostgreSQL"), ("postgres", "PostgreSQL"), ("mysql", "MySQL"),
   ("mysql2", "MySQL"), ("mongodb", "MongoDB"), ("mongoose", "MongoDB"),
   ("@prisma/client", "Prisma"), ("prisma", "Prisma"), ("typeorm", "TypeORM"),
   ("sequelize", "Sequelize"), ("knex", "Knex")]

/-- `detectDatabaseLibraries`: manifest dependencies for Node frameworks
(parse errors swallowed), `requirements.txt` substrings for Python
frameworks, deduplicated preserving first occurrence. -/
def detectDatabaseLibraries (p : Project) (fw : Framework) : List String :=
  let nodeLibs : List String :=
    if isNodeFramework fw.name then
      match p.packageJson with
      | some (ManifestFile.parsed m) =>
        dbLibsTable.foldl
          (fun acc e => if depTruthy m e.1 then acc ++ [e.2] else acc) []
      | _ => []
    else []
  let pyLibs : List String :=
    if isPythonFramework fw.name then
      match p.requirementsTxt with
      | some req =>
        let r := lowerStr req
        (if strContains r "psycopg" || strContains r "pg8000" then ["PostgreSQL"] else []) ++
        (if strContains r "pymongo" then ["MongoDB"] else []) ++
        (if strContains r "mysqlclient" || strContains r "pymysql" then ["MySQL"] else []) ++
        (if strContains r "sqlalchemy" then ["SQLAlchemy"] else [])
      | none => []
    else []
  (nodeLibs ++ pyLibs).foldl insertNew []

/-- The disjunction of the four `localhostPatterns` regexes on one line
(the first is `/['"]?localhost['"]?/i`, i.e. case-insensitive containment;
the `host\s*[:=]` forms are matched verbatim). -/
def localhostPatternHit (line : String) : Bool :=
  strContainsCI line "localhost" ||
  strContains line "127.0.0.1" ||
  hostAssignTest "localhost" line ||
  hostAssignTest "127.0.0.1" line

/-- The connection-keyword condition tested alongside each pattern. -/
def connectionKeywordHit (line : String) : Bool :=
  strContains line "connect" || strContains line "host" ||
  strContains line "DATABASES" || strContains line "createConnection"

/-- One line of the localhost scan: some pattern matches and a
connection-related keyword co-occurs.  (The source skips empty lines, which
can never satisfy the keyword condition anyway.) -/
def lineLocalhostHit (line : String) : Bool :=
  localhostPatternHit line && connectionKeywordHit line

/-- The accumulator threaded through `findDatabaseConnectionIssues`' file
loop. -/
structure DbScanState where
  hasLocalhost : Bool := false
  hasSocketConnection : Bool := false
  hasDatabaseUrl : Bool := false
  localhostFile : Option String := none
  localhostLine : Option Nat := none
deriving DecidableEq, Repr

/-- Per-file update of the database scan state: the `DATABASE_URL` test,
the per-line localhost scan (each later file with a hit overwrites the
recorded file/line, as the source loop does), and the Unix-socket test. -/
def dbScanFile (st : DbScanState) (f content : String) : DbScanState :=
  let st1 := { st with
    hasDatabaseUrl := st.hasDatabaseUrl || strContains content "DATABASE_URL" ||
      strContains content "database_url" }
  let st2 :=
    match (splitLines content).findIdx? lineLocalhostHit with
    | some i => { st1 with
        hasLocalhost := true
        localhostFile := some f
        localhostLine := some (i + 1) }
    | none => st1
  { st2 with
    hasSocketConnection := st2.hasSocketConnection ||
      strContains content "/var/run/postgresql" || strContains content "/tmp/mysql.sock" }

/-- The flags accumulated over the first 30 glob results. -/
def dbScanFlags (p : Project) (fw : Framework) : DbScanState :=
  let files := (if isPythonFramework fw.name then p.pyGlobAll else p.jsGlobAll).take 30
  files.foldl
    (fun st f =>
      match p.readFile (pjoin p.projectPath f) with
      | some content => dbScanFile st f content
      | none => st) {}

/-- The `database-localhost` Issue. -/
def databaseLocalhostIssue (p : Project) (st : DbScanState) (libs : List String) : Issue :=
  { id := "database-localhost"
    severity := Severity.error
    category := Category.database
    message := "Database connection uses localhost, which won\x27t work on Railway"
    file := st.localhostFile.map (pjoin p.projectPath)
    line := st.localhostLine
    fix :=
      { description := "Use DATABASE_URL environment variable for database connection"
        before := some "host: \x27localhost\x27"
        after := some "connectionString: process.env.DATABASE_URL"
        steps := some
          ["Replace hardcoded localhost with DATABASE_URL env var",
           "Railway provides DATABASE_URL automatically when you add a database",
           "Example for " ++ String.intercalate "/" libs ++ ":",
           "  const client = new Client(\x7b connectionString: process.env.DATABASE_URL \x7d)"] } }

/-- The `database-socket` Issue. -/
def databaseSocketIssue : Issue :=
  { id := "database-socket"
    severity := Severity.error
    category := Category.database
    message := "Database connection uses Unix socket, which won\x27t work on Railway"
    fix :=
      { description := "Use TCP connection with DATABASE_URL instead of Unix socket"
        steps := some
          ["Remove socket file paths from database configuration",
           "Use DATABASE_URL environment variable",
           "Railway databases use TCP connections, not Unix sockets"] } }

/-- The `database-url-recommended` informational Issue. -/
def databaseUrlRecommendedIssue (libs : List String) : Issue :=
  { id := "database-url-recommended"
    severity := Severity.info
    category := Category.database
    message := "Detected " ++ String.intercalate ", " libs ++
      " - ensure you\x27re using DATABASE_URL on Railway"
    fix :=
      { description := "Use DATABASE_URL environment variable"
        steps := some
          ["Add a database service in your Railway project",
           "Railway will automatically inject DATABASE_URL",
           "Use this variable in your database connection code"] } }

/-- `findDatabaseConnectionIssues`: the three policy issues generated from
the accumulated flags. -/
def findDatabaseConnectionIssues (p : Project) (fw : Framework) (libs : List String) :
    List Issue :=
  let st := dbScanFlags p fw
  (if st.hasLocalhost && !st.hasDatabaseUrl then [databaseLocalhostIssue p st libs] else []) ++
  (if st.hasSocketConnection then [databaseSocketIssue] else []) ++
  (if libs.length > 0 && !st.hasDatabaseUrl && !st.hasLocalhost then
    [databaseUrlRecommendedIssue libs] else [])

/-- The `no-database` PassedCheck. -/
def noDatabasePass : PassedCheck :=
  { id := "no-database", category := "database", message := "No database libraries detected" }

/-- The `database-config-ok` PassedCheck. -/
def databaseConfigOkPass : PassedCheck :=
  { id := "database-config-ok", category := "database"
    message := "Database configuration looks good" }

/-- `checkDatabaseConfig`: a pass when no database library is detected;
otherwise the connection-string scan, with a pass when it finds nothing. -/
def checkDatabaseConfig (p : Project) (fw : Framework) : CheckResult :=
  let dbLibraries := detectDatabaseLibraries p fw
  if dbLibraries.isEmpty then
    { issues := [], passed := [noDatabasePass] }
  else
    let connectionIssues := findDatabaseConnectionIssues p fw dbLibraries
    { issues := connectionIssues
      passed := if connectionIssues.isEmpty then [databaseConfigOkPass] else [] }

/-! ## Python analyzer (src/scanner/pythonAnalyzer.ts) -/

/-- `DjangoSettings` from `pythonAnalyzer.ts`. -/
structure DjangoSettings where
  allowedHosts : List String := []
  debug : Option Bool := none
  hasWhitenoise : Bool := false
  hasDatabaseUrl : Bool := false
  hasStaticRoot : Bool := false
  csrfTrustedOrigins : List String := []
deriving DecidableEq, Repr

/-- `PythonFileAnalysis` from `pythonAnalyzer.ts`. -/
structure PythonFileAnalysis where
  hasFlaskApp : Bool := false
  hasFastAPIApp : Bool := false
  djangoSettings : Option DjangoSettings := none
  imports : List String := []
deriving DecidableEq, Repr

/-- `parseDjangoSettings`: best-effort regex extraction of the settings
fields; every absent field keeps its zero default. -/
def parseDjangoSettings (content : String) : DjangoSettings :=
  { allowedHosts := ((findListAssign "ALLOWED_HOSTS" content.data).map quotedStrings).getD []
    debug := findFirst matchDebugAt content.data
    hasWhitenoise := strContains content "whitenoise"
    hasDatabaseUrl := strContains content "DATABASE_URL" ||
      strContains content "dj_database_url" || strContains content "dj-database-url"
    hasStaticRoot := (findFirst matchStaticRootAt content.data).isSome
    csrfTrustedOrigins := ((findListAssign "CSRF_TRUSTED_ORIGINS" content.data).map quotedStrings).getD [] }

/-- `analyzePythonFile`: the empty analysis when the file does not exist;
otherwise the idiom tests, the import collection, and (for a path containing
`settings.py`) the settings extraction.  An unreadable existing file is
modelled as the empty analysis (the source would propagate a read error
there; no claim exercises that case). -/
def analyzePythonFile (p : Project) (filePath : String) : PythonFileAnalysis :=
  if p.fileExists filePath then
    match p.readFile filePath with
    | some content =>
      { hasFlaskApp := appCtorTest "Flask" content
        hasFastAPIApp := appCtorTest "FastAPI" content
        djangoSettings :=
          if strContains filePath "settings.py" then some (parseDjangoSettings content)
          else none
        imports := (splitLines content).filterMap (fun l => matchImportLine l.data) }
    | none => {}
  else {}

/-- `findDjangoSettings`: first result of the `**/settings.py` glob, joined
to the project path (glob errors modelled as an empty result). -/
def findDjangoSettings (p : Project) : Option String :=
  p.settingsGlob.head?.map (pjoin p.projectPath)

/-- `findPythonMainFile`: first existing candidate (joined), else the first
result of the Python main-file glob (joined). -/
def findPythonMainFile (p : Project) (candidates : List String) : Option String :=
  match candidates.find? (fun c => p.fileExists (pjoin p.projectPath c)) with
  | some c => some (pjoin p.projectPath c)
  | none => p.pyMainGlob.head?.map (pjoin p.projectPath)

/-! ## Django framework check (src/frameworks/django.ts) -/

/-- The `django-no-settings` Issue (severity `error` in the source). -/
def djangoNoSettingsIssue : Issue :=
  { id := "django-no-settings"
    severity := Severity.error
    category := Category.startCommand
    message := "Django settings.py file not found"
    fix :=
      { description := "Ensure your Django project has a settings.py file"
        steps := some
          ["Verify your Django project structure is correct",
           "settings.py should be in your Django app directory"] } }

/-- The `django-empty-allowed-hosts` Issue. -/
def djangoEmptyAllowedHostsIssue (settingsPath : String) : Issue :=
  { id := "django-empty-allowed-hosts"
    severity := Severity.error
    category := Category.host
    message := "ALLOWED_HOSTS is empty - Django will reject all requests on Railway"
    file := some settingsPath
    fix :=
      { description := "Add Railway domains to ALLOWED_HOSTS"
        before := some "ALLOWED_HOSTS = []"
        after := some "ALLOWED_HOSTS = [\x27*\x27]  # Or specify Railway domain"
        steps := some
          ["Update ALLOWED_HOSTS in settings.py",
           "Use [\x27*\x27] for wildcard or add your Railway domain",
           "Example: ALLOWED_HOSTS = [\x27.railway.app\x27, \x27yourdomain.com\x27]"] } }

/-- The `django-no-railway-hosts` Issue. -/
def djangoNoRailwayHostsIssue (settingsPath : String) (hosts : List String) : Issue :=
  { id := "django-no-railway-hosts"
    severity := Severity.warning
    category := Category.host
    message := "ALLOWED_HOSTS doesn\x27t include Railway domains"
    file := some settingsPath
    fix :=
      { description := "Add Railway domains to ALLOWED_HOSTS"
        steps := some
          ["Add \x27.railway.app\x27 to ALLOWED_HOSTS",
           "Or use [\x27*\x27] to allow all hosts",
           "Current hosts: " ++ String.intercalate ", " hosts] } }

/-- The `django-allowed-hosts` PassedCheck. -/
def djangoAllowedHostsPass : PassedCheck :=
  { id := "django-allowed-hosts", category := "host"
    message := "ALLOWED_HOSTS configured correctly" }

/-- The `django-debug-true` Issue. -/
def djangoDebugTrueIssue (settingsPath : String) : Issue :=
  { id := "django-debug-true"
    severity := Severity.warning
    category := Category.startCommand
    message := "DEBUG is set to True - should be False in production"
    file := some settingsPath
    fix :=
      { description := "Set DEBUG based on environment variable"
        before := some "DEBUG = True"
        after := some "DEBUG = os.environ.get(\x27DEBUG\x27, \x27False\x27) == \x27True\x27"
        steps := some
          ["Use environment variable to control DEBUG",
           "Set DEBUG=False in Railway environment variables"] } }

/-- The `django-debug-false` PassedCheck. -/
def djangoDebugFalsePass : PassedCheck :=
  { id := "django-debug-false", category := "start-command"
    message := "DEBUG is correctly set to False" }

/-- The `django-no-whitenoise` Issue. -/
def djangoNoWhitenoiseIssue (settingsPath : String) : Issue :=
  { id := "django-no-whitenoise"
    severity := Severity.error
    category := Category.staticFiles
    message := "Whitenoise not detected - static files won\x27t be served on Railway"
    file := some settingsPath
    fix :=
      { description := "Install and configure whitenoise for static files"
        steps := some
          ["Add \x27whitenoise\x27 to requirements.txt",
           "Add \x27whitenoise.middleware.WhiteNoiseMiddleware\x27 to MIDDLEWARE in settings.py",
           "Add after SecurityMiddleware, before other middleware",
           "Set STATIC_ROOT = BASE_DIR / \x27staticfiles\x27"] } }

/-- The `django-whitenoise` PassedCheck. -/
def djangoWhitenoisePass : PassedCheck :=
  { id := "django-whitenoise", category := "static-files"
    message := "Whitenoise configured for static files" }

/-- The `django-no-static-root` Issue. -/
def djangoNoStaticRootIssue (settingsPath : String) : Issue :=
  { id := "django-no-static-root"
    severity := Severity.warning
    category := Category.staticFiles
    message := "STATIC_ROOT not set"
    file := some settingsPath
    fix :=
      { description := "Set STATIC_ROOT for collectstatic"
        after := some "STATIC_ROOT = BASE_DIR / \x27staticfiles\x27"
        steps := some
          ["Add STATIC_ROOT to settings.py",
           "Run \x27python manage.py collectstatic\x27 before deployment"] } }

/-- The `django-no-database-url` Issue. -/
def djangoNoDatabaseUrlIssue (settingsPath : String) : Issue :=
  { id := "django-no-database-url"
    severity := Severity.warning
    category := Category.database
    message := "DATABASE_URL not detected - database configuration may be hardcoded"
    file := some settingsPath
    fix :=
      { description := "Use dj-database-url for Railway database"
        steps := some
          ["Add \x27dj-database-url\x27 to requirements.txt",
           "Import: import dj_database_url",
           "Use: DATABASES[\x27default\x27] = dj_database_url.config(conn_max_age=600)",
           "Railway automatically provides DATABASE_URL"] } }

/-- The `django-database-url` PassedCheck. -/
def djangoDatabaseUrlPass : PassedCheck :=
  { id := "django-database-url", category := "database"
    message := "DATABASE_URL configuration detected" }

/-- The `django-no-csrf-origins` Issue. -/
def djangoNoCsrfOriginsIssue (settingsPath : String) : Issue :=
  { id := "django-no-csrf-origins"
    severity := Severity.info
    category := Category.host
    message := "CSRF_TRUSTED_ORIGINS not set - may need for Django 4.0+"
    file := some settingsPath
    fix :=
      { description := "Add Railway domain to CSRF_TRUSTED_ORIGINS"
        after := some "CSRF_TRUSTED_ORIGINS = [\x27https://*.railway.app\x27]"
        steps := some
          ["Required for Django 4.0+ on Railway",
           "Add your Railway domain to CSRF_TRUSTED_ORIGINS"] } }

/-- The `django-no-gunicorn` Issue emitted by `checkDjango` against
`requirements.txt`. -/
def djangoReqNoGunicornIssue (requirementsPath : String) : Issue :=
  { id := "django-no-gunicorn"
    severity := Severity.error
    category := Category.startCommand
    message := "gunicorn not found in requirements.txt"
    file := some requirementsPath
    fix :=
      { description := "Add gunicorn for production server"
        after := some "gunicorn"
        steps := some
          ["Add \x27gunicorn\x27 to requirements.txt",
           "Gunicorn is required for Django production on Railway"] } }

/-- `checkDjango` from `django.ts` (unnamed part 001): locate `settings.py`
(absence yields the single `django-no-settings` error and an early return),
then validate the extracted settings fields in source order. -/
def checkDjango (p : Project) (_fw : Framework) : CheckResult :=
  match findDjangoSettings p with
  | none => { issues := [djangoNoSettingsIssue], passed := [] }
  | some settingsPath =>
    let analysis := analyzePythonFile p settingsPath
    match analysis.djangoSettings with
    | none => { issues := [], passed := [] }
    | some settings =>
      let hostPart : List Issue × List PassedCheck :=
        if settings.allowedHosts.length = 0 ∨
           (settings.allowedHosts.length = 1 ∧ settings.allowedHosts.head? = some "") then
          ([djangoEmptyAllowedHostsIssue settingsPath], [])
        else if !settings.allowedHosts.contains "*" &&
                !settings.allowedHosts.any (fun h => strContains h "railway.app") then
          ([djangoNoRailwayHostsIssue settingsPath settings.allowedHosts], [])
        else ([], [djangoAllowedHostsPass])
      let debugPart : List Issue × List PassedCheck :=
        match settings.debug with
        | some true => ([djangoDebugTrueIssue settingsPath], [])
        | some false => ([], [djangoDebugFalsePass])
        | none => ([], [])
      let whitenoisePart : List Issue × List PassedCheck :=
        if !settings.hasWhitenoise then ([djangoNoWhitenoiseIssue settingsPath], [])
        else ([], [djangoWhitenoisePass])
      let staticRootIssues : List Issue :=
        if !settings.hasStaticRoot then [djangoNoStaticRootIssue settingsPath] else []
      let dbUrlPart : List Issue × List PassedCheck :=
        if !settings.hasDatabaseUrl then ([djangoNoDatabaseUrlIssue settingsPath], [])
        else ([], [djangoDatabaseUrlPass])
      let csrfIssues : List Issue :=
        if settings.csrfTrustedOrigins.length = 0 then [djangoNoCsrfOriginsIssue settingsPath]
        else []
      let gunicornIssues : List Issue :=
        match p.requirementsTxt with
        | some req =>
          if !strContains (lowerStr req) "gunicorn" then
            [djangoReqNoGunicornIssue (pjoin p.projectPath "requirements.txt")]
          else []
        | none => []
      { issues := hostPart.1 ++ debugPart.1 ++ whitenoisePart.1 ++ staticRootIssues ++
          dbUrlPart.1 ++ csrfIssues ++ gunicornIssues
        passed := hostPart.2 ++ debugPart.2 ++ whitenoisePart.2 ++ dbUrlPart.2 }

/-! ## Flask framework check (src/frameworks/flask.ts) -/

/-- `checkFlask`: entry-file search (absence yields a single warning and an
early return), init-idiom test, dev-server and debug-mode detection,
gunicorn in `requirements.txt`, and Procfile validation. -/
def checkFlask (p : Project) (_fw : Framework) : CheckResult :=
  match findPythonMainFile p ["app.py", "main.py", "wsgi.py", "application.py"] with
  | none =>
    { issues :=
        [{ id := "flask-no-app-file"
           severity := Severity.warning
           category := Category.startCommand
           message := "Could not find Flask app file (app.py, main.py, etc.)"
           fix :=
             { description := "Ensure your Flask app file exists"
               steps := some
                 ["Common Flask entry points: app.py, main.py, wsgi.py",
                  "Make sure your Flask app is properly defined"] } }]
      passed := [] }
  | some mainFile =>
    let analysis := analyzePythonFile p mainFile
    let initIssues : List Issue :=
      if !analysis.hasFlaskApp then
        [{ id := "flask-no-app-init"
           severity := Severity.warning
           category := Category.startCommand
           message := "Flask app initialization not detected"
           file := some mainFile
           fix :=
             { description := "Ensure Flask app is properly initialized"
               after := some "app = Flask(__name__)"
               steps := some
                 ["Your Flask app should be initialized with Flask(__name__)"] } }]
      else []
    let content := (p.readFile mainFile).getD ""
    let runIssues : List Issue :=
      if strContains content "app.run(" then
        (if flaskDebugTest content then
          [{ id := "flask-debug-mode"
             severity := Severity.error
             category := Category.startCommand
             message := "Flask debug mode detected - should not be used in production"
             file := some mainFile
             fix :=
               { description := "Remove debug mode and use gunicorn for production"
                 before := some "app.run(debug=True)"
                 after := some "app.run()  # Or remove entirely and use gunicorn"
                 steps := some
                   ["Remove debug=True from app.run()",
                    "Use gunicorn instead of Flask development server",
                    "Example Procfile: web: gunicorn app:app --bind 0.0.0.0:$PORT"] } }]
        else []) ++
        [{ id := "flask-dev-server"
           severity := Severity.warning
           category := Category.startCommand
           message := "Flask development server (app.run()) detected"
           file := some mainFile
           fix :=
             { description := "Use gunicorn for production instead of app.run()"
               steps := some
                 ["Add gunicorn to requirements.txt",
                  "Create Procfile: web: gunicorn app:app --bind 0.0.0.0:$PORT",
                  "Remove or wrap app.run() in if __name__ == \x27__main__\x27"] } }]
      else []
    let reqPart : List Issue × List PassedCheck :=
      match p.requirementsTxt with
      | some req =>
        if !strContains (lowerStr req) "gunicorn" then
          ([{ id := "flask-no-gunicorn"
              severity := Severity.error
              category := Category.startCommand
              message := "gunicorn not found in requirements.txt"
              file := some (pjoin p.projectPath "requirements.txt")
              fix :=
                { description := "Add gunicorn for production server"
                  after := some "gunicorn"
                  steps := some
                    ["Add \x27gunicorn\x27 to requirements.txt",
                     "Gunicorn is the recommended production server for Flask"] } }], [])
        else
          ([], [{ id := "flask-has-gunicorn", category := "start-command"
                  message := "Gunicorn found in requirements.txt" }])
      | none => ([], [])
    let procPart : List Issue × List PassedCheck :=
      match p.procfile with
      | some pf =>
        let procfilePath := pjoin p.projectPath "Procfile"
        let i1 : List Issue :=
          if !strContains pf "gunicorn" then
            [{ id := "flask-procfile-no-gunicorn"
               severity := Severity.error
               category := Category.startCommand
               message := "Procfile doesn\x27t use gunicorn"
               file := some procfilePath
               fix :=
                 { description := "Use gunicorn in Procfile"
                   after := some "web: gunicorn app:app --bind 0.0.0.0:$PORT"
                   steps := some
                     ["Update Procfile to use gunicorn",
                      "Format: web: gunicorn module:app --bind 0.0.0.0:$PORT",
                      "Replace \x27module\x27 with your Python file name (without .py)"] } }]
          else []
        let i2 : List Issue :=
          if !strContains pf "0.0.0.0" then
            [{ id := "flask-procfile-no-host"
               severity := Severity.error
               category := Category.host
               message := "Procfile doesn\x27t bind to 0.0.0.0"
               file := some procfilePath
               fix :=
                 { description := "Add --bind 0.0.0.0:$PORT to gunicorn command"
                   steps := some
                     ["Update Procfile to bind to 0.0.0.0",
                      "Example: web: gunicorn app:app --bind 0.0.0.0:$PORT"] } }]
          else []
        let i3 : List Issue :=
          if !strContains pf "$PORT" && !strContains pf "$\x7bPORT\x7d" then
            [{ id := "flask-procfile-no-port"
               severity := Severity.error
               category := Category.port
               message := "Procfile doesn\x27t use $PORT environment variable"
               file := some procfilePath
               fix :=
                 { description := "Use $PORT in gunicorn bind address"
                   steps := some
                     ["Update Procfile to use $PORT",
                      "Example: web: gunicorn app:app --bind 0.0.0.0:$PORT"] } }]
          else []
        let pp : List PassedCheck :=
          if strContains pf "gunicorn" && strContains pf "0.0.0.0" &&
             (strContains pf "$PORT" || strContains pf "$\x7bPORT\x7d") then
            [{ id := "flask-procfile-correct", category := "start-command"
               message := "Procfile configured correctly for Railway" }]
          else []
        (i1 ++ i2 ++ i3, pp)
      | none => ([], [])
    { issues := initIssues ++ runIssues ++ reqPart.1 ++ procPart.1
      passed := reqPart.2 ++ procPart.2 }

/-! ## FastAPI framework check (src/frameworks/fastapi.ts) -/

/-- `checkFastAPI`: entry-file search (absence yields a single warning and
an early return), init-idiom test, `uvicorn.run()` detection, uvicorn in
`requirements.txt`, Procfile validation, and the workers suggestion. -/
def checkFastAPI (p : Project) (_fw : Framework) : CheckResult :=
  match findPythonMainFile p ["main.py", "app.py", "application.py"] with
  | none =>
    { issues :=
        [{ id := "fastapi-no-app-file"
           severity := Severity.warning
           category := Category.startCommand
           message := "Could not find FastAPI app file (main.py, app.py, etc.)"
           fix :=
             { description := "Ensure your FastAPI app file exists"
               steps := some
                 ["Common FastAPI entry points: main.py, app.py",
                  "Make sure your FastAPI app is properly defined"] } }]
      passed := [] }
  | some mainFile =>
    let analysis := analyzePythonFile p mainFile
    let initIssues : List Issue :=
      if !analysis.hasFastAPIApp then
        [{ id := "fastapi-no-app-init"
           severity := Severity.warning
           category := Category.startCommand
           message := "FastAPI app initialization not detected"
           file := some mainFile
           fix :=
             { description := "Ensure FastAPI app is properly initialized"
               after := some "app = FastAPI()"
               steps := some
                 ["Your FastAPI app should be initialized with FastAPI()"] } }]
      else []
    let content := (p.readFile mainFile).getD ""
    let runIssues : List Issue :=
      if strContains content "uvicorn.run(" then
        [{ id := "fastapi-dev-server"
           severity := Severity.warning
           category := Category.startCommand
           message := "uvicorn.run() detected - use command line uvicorn for production"
           file := some mainFile
           fix :=
             { description := "Use command line uvicorn instead of uvicorn.run()"
               steps := some
                 ["Remove uvicorn.run() from your code",
                  "Use Procfile with: web: uvicorn main:app --host 0.0.0.0 --port $PORT",
                  "Or wrap in: if __name__ == \x27__main__\x27: uvicorn.run()"] } }]
      else []
    let reqPart : List Issue × List PassedCheck :=
      match p.requirementsTxt with
      | some req =>
        if !strContains (lowerStr req) "uvicorn" then
          ([{ id := "fastapi-no-uvicorn"
              severity := Severity.error
              category := Category.startCommand
              message := "uvicorn not found in requirements.txt"
              file := some (pjoin p.projectPath "requirements.txt")
              fix :=
                { description := "Add uvicorn for ASGI server"
                  after := some "uvicorn[standard]"
                  steps := some
                    ["Add \x27uvicorn[standard]\x27 to requirements.txt",
                     "Uvicorn is the recommended ASGI server for FastAPI"] } }], [])
        else
          ([], [{ id := "fastapi-has-uvicorn", category := "start-command"
                  message := "Uvicorn found in requirements.txt" }])
      | none => ([], [])
    let procPart : List Issue × List PassedCheck :=
      match p.procfile with
      | some pf =>
        let procfilePath := pjoin p.projectPath "Procfile"
        let i1 : List Issue :=
          if !strContains pf "uvicorn" then
            [{ id := "fastapi-procfile-no-uvicorn"
               severity := Severity.error
               category := Category.startCommand
               message := "Procfile doesn\x27t use uvicorn"
               file := some procfilePath
               fix :=
                 { description := "Use uvicorn in Procfile"
                   after := some "web: uvicorn main:app --host 0.0.0.0 --port $PORT"
                   steps := some
                     ["Update Procfile to use uvicorn",
                      "Format: web: uvicorn module:app --host 0.0.0.0 --port $PORT",
                      "Replace \x27module\x27 with your Python file name (without .py)"] } }]
          else []
        let i2 : List Issue :=
          if !strContains pf "0.0.0.0" then
            [{ id := "fastapi-procfile-no-host"
               severity := Severity.error
               category := Category.host
               message := "Procfile doesn\x27t bind to 0.0.0.0"
               file := some procfilePath
               fix :=
                 { description := "Add --host 0.0.0.0 to uvicorn command"
                   steps := some
                     ["Update Procfile to bind to 0.0.0.0",
                      "Example: web: uvicorn main:app --host 0.0.0.0 --port $PORT"] } }]
          else []
        let i3 : List Issue :=
          if !strContains pf "$PORT" && !strContains pf "$\x7bPORT\x7d" then
            [{ id := "fastapi-procfile-no-port"
               severity := Severity.error
               category := Category.port
               message := "Procfile doesn\x27t use $PORT environment variable"
               file := some procfilePath
               fix :=
                 { description := "Use $PORT in uvicorn command"
                   steps := some
                     ["Update Procfile to use $PORT",
                      "Example: web: uvicorn main:app --host 0.0.0.0 --port $PORT"] } }]
          else []
        let pp : List PassedCheck :=
          if strContains pf "uvicorn" && strContains pf "0.0.0.0" &&
             (strContains pf "$PORT" || strContains pf "$\x7bPORT\x7d") then
            [{ id := "fastapi-procfile-correct", category := "start-command"
               message := "Procfile configured correctly for Railway" }]
          else []
        let i4 : List Issue :=
          if strContains pf "uvicorn" && !strContains pf "--workers" then
            [{ id := "fastapi-no-workers"
               severity := Severity.info
               category := Category.startCommand
               message := "Consider adding workers for better performance"
               file := some procfilePath
               fix :=
                 { description := "Add workers to uvicorn for production"
                   steps := some
                     ["Add --workers flag to uvicorn command",
                      "Example: web: uvicorn main:app --host 0.0.0.0 --port $PORT --workers 4",
                      "Workers enable concurrent request handling"] } }]
          else []
        (i1 ++ i2 ++ i3 ++ i4, pp)
      | none => ([], [])
    { issues := initIssues ++ runIssues ++ reqPart.1 ++ procPart.1
      passed := reqPart.2 ++ procPart.2 }

/-! ## Orchestrator (src/scanner/index.ts, multi-file variant) -/

/-- `issues.filter(i => i.severity === s).length`. -/
def severityCount (issues : List Issue) (s : Severity) : Nat :=
  (issues.filter (fun i => i.severity = s)).length

/-- `generateSummary`: error/warning counts and the three-way verdict. -/
def generateSummary (issues : List Issue) (passed : List PassedCheck) : Summary :=
  let errors := severityCount issues Severity.error
  let warnings := severityCount issues Severity.warning
  let deploymentLikelihood :=
    if errors > 0 then Likelihood.willFail
    else if warnings > 0 then Likelihood.mightFail
    else Likelihood.shouldSucceed
  { totalIssues := issues.length
    errors := errors
    warnings := warnings
    passed := passed.length
    deploymentLikelihood := deploymentLikelihood }

/-- The `start-command-check` PassedCheck pushed by the orchestrator. -/
def startCommandPass : PassedCheck :=
  { id := "start-command-check", category := "start-command"
    message := "Start command looks good" }

/-- The body of `scanProject` after framework detection succeeded: run
every check in the fixed source order, concatenate, and build the
`ScanResult`. -/
def scanResultFor (p : Project) (fw : Framework) : ScanResult :=
  let portResult := checkPortUsage p fw
  let hostResult := checkHostBinding p fw
  let startCommandIssues := checkStartCommand p fw
  let envVarsResult := checkEnvVars p fw
  let databaseResult := checkDatabaseConfig p fw
  let frameworkResult : CheckResult :=
    match fw.name with
    | FrameworkName.django => checkDjango p fw
    | FrameworkName.flask => checkFlask p fw
    | FrameworkName.fastapi => checkFastAPI p fw
    | _ => { issues := [], passed := [] }
  let issues := portResult.issues ++ hostResult.issues ++ startCommandIssues ++
    envVarsResult.issues ++ databaseResult.issues ++ frameworkResult.issues
  let passed := portResult.passed ++ hostResult.passed ++
    (if startCommandIssues.isEmpty then [startCommandPass] else []) ++
    envVarsResult.passed ++ databaseResult.passed ++ frameworkResult.passed
  { projectPath := p.projectPath
    framework := fw
    issues := issues
    warnings := issues.filter (fun i => i.severity = Severity.warning)
    passed := passed
    summary := generateSummary issues passed }

/-- `scanProject` from the multi-file scanner: detect the framework (a
parse error thrown there escapes `scanProject` and is caught only at the
CLI top level), then run every check. -/
def scanProject (p : Project) : Except Unit ScanResult :=
  match detectFramework p with
  | Except.error e => Except.error e
  | Except.ok framework => Except.ok (scanResultFor p framework)

/-! ## Helper lemmas -/

theorem scanProject_ok (p : Project) (r : ScanResult) (h : scanProject p = Except.ok r) :
    ∃ fw, detectFramework p = Except.ok fw ∧ r = scanResultFor p fw := by
  unfold scanProject at h
  cases hd : detectFramework p with
  | error e => rw [hd] at h; cases h
  | ok fw =>
    rw [hd] at h
    exact ⟨fw, rfl, (Except.ok.inj h).symm⟩

theorem scanResultFor_summary (p : Project) (fw : Framework) :
    (scanResultFor p fw).summary =
      generateSummary (scanResultFor p fw).issues (scanResultFor p fw).passed := rfl

theorem scanResultFor_warnings_eq (p : Project) (fw : Framework) :
    (scanResultFor p fw).warnings =
      (scanResultFor p fw).issues.filter (fun i => i.severity = Severity.warning) := rfl

theorem scanResultFor_framework (p : Project) (fw : Framework) :
    (scanResultFor p fw).framework = fw := rfl

theorem generateSummary_likelihood_char (I : List Issue) (P : List PassedCheck) :
    ((generateSummary I P).deploymentLikelihood = Likelihood.willFail ↔
       0 < severityCount I Severity.error) ∧
    ((generateSummary I P).deploymentLikelihood = Likelihood.mightFail ↔
       severityCount I Severity.error = 0 ∧ 0 < severityCount I Severity.warning) ∧
    ((generateSummary I P).deploymentLikelihood = Likelihood.shouldSucceed ↔
       severityCount I Severity.error = 0 ∧ severityCount I Severity.warning = 0) := by
  unfold generateSummary
  by_cases he : 0 < severityCount I Severity.error <;>
    by_cases hw : 0 < severityCount I Severity.warning <;>
    simp [he, hw] <;> omega

theorem severityCount_partition (I : List Issue) :
    severityCount I Severity.error + severityCount I Severity.warning +
      severityCount I Severity.info = I.length := by
  induction I with
  | nil => rfl
  | cons i t ih =>
    unfold severityCount at *
    cases h : i.severity <;> simp [List.filter_cons, h] <;> omega

theorem checkStartCommand_unknown_nil (p : Project) (fw : Framework)
    (h : fw.name = FrameworkName.unknown) : checkStartCommand p fw = [] := by
  unfold checkStartCommand
  simp [isNodeFramework, isPythonFramework, h]

/-! ## Witness inputs -/

/-- A project directory with no files at all. -/
def emptyProject : Project :=
  { projectPath := "proj" }

/-- The result of scanning `emptyProject`: no issues, five passes. -/
def emptyScanResult : ScanResult :=
  { projectPath := "proj"
    framework := { name := FrameworkName.unknown }
    issues := []
    warnings := []
    passed := [portCheckPass, hostCheckPass, startCommandPass, noEnvFilePass, noDatabasePass]
    summary :=
      { totalIssues := 0, errors := 0, warnings := 0, passed := 5
        deploymentLikelihood := Likelihood.shouldSucceed } }

theorem scanProject_emptyProject : scanProject emptyProject = Except.ok emptyScanResult := rfl

/-! ## Claims -/

/-- C1: for every ScanResult produced by `scanProject`, the summary's
`deploymentLikelihood` is `will-fail` iff the count of error-severity issues
is positive, `might-fail` iff that count is zero and the warning count is
positive, and `should-succeed` iff both counts are zero — exhaustive over
the three values. -/
theorem scanProject_deployment_likelihood (p : Project) (r : ScanResult)
    (h : scanProject p = Except.ok r) :
    ((r.summary.deploymentLikelihood = Likelihood.willFail ↔
        0 < severityCount r.issues Severity.error) ∧
     (r.summary.deploymentLikelihood = Likelihood.mightFail ↔
        severityCount r.issues Severity.error = 0 ∧
        0 < severityCount r.issues Severity.warning) ∧
     (r.summary.deploymentLikelihood = Likelihood.shouldSucceed ↔
        severityCount r.issues Severity.error = 0 ∧
        severityCount r.issues Severity.warning = 0)) := by
  obtain ⟨fw, -, rfl⟩ := scanProject_ok p r h
  rw [scanResultFor_summary]
  exact generateSummary_likelihood_char _ _

/-- Witness for C1 at the empty project. -/
theorem scanProject_deployment_likelihood_witness :
    scanProject emptyProject = Except.ok emptyScanResult ∧
    (emptyScanResult.summary.deploymentLikelihood = Likelihood.shouldSucceed ↔
       severityCount emptyScanResult.issues Severity.error = 0 ∧
       severityCount emptyScanResult.issues Severity.warning = 0) :=
  ⟨scanProject_emptyProject,
   (scanProject_deployment_likelihood emptyProject emptyScanResult
      scanProject_emptyProject).2.2⟩

/-- C2: for every ScanResult produced by `scanProject`,
`summary.totalIssues` equals the length of `issues`, the error, warning and
info counts partition it, and the `warnings` field is exactly the
order-preserving warning-severity subsequence of `issues`. -/
theorem scanProject_summary_counts (p : Project) (r : ScanResult)
    (h : scanProject p = Except.ok r) :
    r.summary.totalIssues = r.issues.length ∧
    r.summary.errors + r.summary.warnings + severityCount r.issues Severity.info =
      r.summary.totalIssues ∧
    r.warnings = r.issues.filter (fun i => i.severity = Severity.warning) := by
  obtain ⟨fw, -, rfl⟩ := scanProject_ok p r h
  refine ⟨rfl, ?_, scanResultFor_warnings_eq p fw⟩
  rw [scanResultFor_summary]
  exact severityCount_partition _

/-- Witness for C2 at the empty project. -/
theorem scanProject_summary_counts_witness :
    emptyScanResult.summary.totalIssues = emptyScanResult.issues.length ∧
    emptyScanResult.summary.errors + emptyScanResult.summary.warnings +
      severityCount emptyScanResult.issues Severity.info =
        emptyScanResult.summary.totalIssues ∧
    emptyScanResult.warnings =
      emptyScanResult.issues.filter (fun i => i.severity = Severity.warning) :=
  scanProject_summary_counts emptyProject emptyScanResult scanProject_emptyProject

/-- A project whose package manifest exists but holds malformed JSON, and
whose `requirements.txt` names flask (so Python fallthrough would detect a
framework if it happened). -/
def malformedManifestProject : Project :=
  { projectPath := "proj"
    packageJson := some ManifestFile.malformed
    requirementsTxt := some "flask\n" }

/-- C3 counterexample: on a project with a malformed manifest and a flask
`requirements.txt`, `detectFramework` propagates the `JSON.parse` exception
(`Except.error`) instead of swallowing it and falling through to Python
detection — the claim is false as stated. -/
theorem detectFramework_malformed_counterexample :
    malformedManifestProject.packageJson = some ManifestFile.malformed ∧
    malformedManifestProject.requirementsTxt = some "flask\n" ∧
    detectFramework malformedManifestProject = Except.error () :=
  ⟨rfl, rfl, rfl⟩

/-- C3 amended: for every project whose package manifest exists but holds
malformed JSON, `detectFramework` throws (the parse error escapes the
function, to be caught only at the CLI top level); detection does not fall
through to the Python dependency-list check. -/
theorem detectFramework_malformed_throws (p : Project)
    (h : p.packageJson = some ManifestFile.malformed) :
    detectFramework p = Except.error () := by
  unfold detectFramework
  rw [h]

/-- Witness for the amended C3. -/
theorem detectFramework_malformed_throws_witness :
    detectFramework malformedManifestProject = Except.error () :=
  detectFramework_malformed_throws malformedManifestProject rfl

/-- The C4 counterexample file: a `.listen(3000)` call plus a port-named
variable assigned 9999. -/
def portOverwriteCode : String :=
  "app.listen(3000)\nconst xPortx = 9999"

/-- C4 counterexample: `portOverwriteCode` has a `.listen(` numeric literal
3000 ≥ 1000 and no PORT environment reference, yet the single
`port-hardcoded` error cites 9999 (the port-variable loop overwrites the
cited value), not the listen literal 3000 as the claim states. -/
theorem port_cited_value_counterexample :
    firstGE1000 (listenNumMatches portOverwriteCode.data) = some (3, 3000) ∧
    portEnvVarRef portOverwriteCode = false ∧
    (scanFileForPortIssues portOverwriteCode "server.js"
        { name := FrameworkName.express }).map (fun i => (i.id, i.message)) =
      [("port-hardcoded", "Hardcoded port 9999. Railway requires process.env.PORT")] := by
  refine ⟨rfl, rfl, rfl⟩

/-- C4 amended: a file with a `.listen(` numeric literal ≥ 1000 and no PORT
environment reference gets exactly one `port-hardcoded` error; the error
cites the listen literal provided neither the port-named-variable detector
nor the Python run-call port-keyword detector also fires (those run later
and overwrite the cited value); a PORT environment reference anywhere in the
file suppresses the issue entirely. -/
theorem scanFileForPortIssues_spec :
    (∀ code file fw, portEnvVarRef code = true →
       scanFileForPortIssues code file fw = []) ∧
    (∀ code file fw i v, portEnvVarRef code = false →
       firstGE1000 (listenNumMatches code.data) = some (i, v) →
       firstGE1000 (portVarMatches code.data) = none →
       firstGE1000 (pyRunPortMatches code.data) = none →
       (scanFileForPortIssues code file fw).map (fun x => (x.id, x.severity, x.message)) =
         [("port-hardcoded", Severity.error,
           "Hardcoded port " ++ Nat.repr v ++ ". Railway requires process.env.PORT")]) := by
  constructor
  · intro code file fw h
    unfold scanFileForPortIssues
    simp only [h, if_true]
    cases firstGE1000 (listenNumMatches code.data) <;> simp
  · intro code file fw i v henv h1 h2 h3
    have hge : 1000 ≤ v := by
      have := List.find?_some h1
      simpa using this
    have hv0 : v ≠ 0 := by omega
    unfold scanFileForPortIssues
    simp only [henv, if_false, h1, h2, h3, Option.orElse_none, Option.none_orElse]
    simp [portHardcodedIssue, portValueText, hv0]

/-- Witness for the amended C4: suppression and the exact cited literal at
concrete inputs. -/
theorem scanFileForPortIssues_spec_witness :
    scanFileForPortIssues "process.env.PORT; app.listen(4321)" "a.js"
        { name := FrameworkName.express } = [] ∧
    (scanFileForPortIssues "app.listen(3000)" "server.js"
        { name := FrameworkName.express }).map (fun x => (x.id, x.severity, x.message)) =
      [("port-hardcoded", Severity.error,
        "Hardcoded port 3000. Railway requires process.env.PORT")] :=
  ⟨scanFileForPortIssues_spec.1 "process.env.PORT; app.listen(4321)" "a.js"
     { name := FrameworkName.express } rfl,
   scanFileForPortIssues_spec.2 "app.listen(3000)" "server.js"
     { name := FrameworkName.express } 3 3000 rfl rfl rfl rfl⟩

/-- A Next.js project with no source files and a `next start` script that
lacks the hostname flag. -/
def nextStartProject : Project :=
  { projectPath := "proj"
    packageJson := some (ManifestFile.parsed
      { dependencies := [("next", "13.4.0")], scriptsStart := some "next start" }) }

/-- The Next.js framework value for `nextStartProject`. -/
def nextFrameworkValue : Framework :=
  { name := FrameworkName.nextjs, version := some "13.4.0", mainFile := some "next.config.js" }

/-- C5 counterexample: in `nextStartProject` no file yields a host issue
(there are no files at all), yet the check contributes no pass, because the
Next.js manifest check fires `nextjs-host-flag` and suppresses it — the
claim's final clause is false as stated. -/
theorem host_pass_counterexample :
    nextStartProject.jsGlobStrict = [] ∧
    (checkHostBinding nextStartProject nextFrameworkValue).issues.map (fun i => i.id) =
      ["nextjs-host-flag"] ∧
    (checkHostBinding nextStartProject nextFrameworkValue).passed = [] :=
  ⟨rfl, rfl, rfl⟩

/-- C5 amended: a file containing a `.listen(` call and no quoted `0.0.0.0`
literal yields one `host-binding` issue, at error severity exactly when a
quoted localhost/loopback literal is present and warning otherwise; a file
with a quoted `0.0.0.0` yields no issue; and when no file yields a host
issue the check contributes the single pass, provided the framework is not
Next.js (whose manifest host-flag check can fire and suppress the pass even
with no file issues). -/
theorem scanFileForHostIssues_spec :
    (∀ code file fw, listenCallTest code.data = true → hasCorrectBinding code = false →
       (scanFileForHostIssues code file fw).map (fun i => (i.id, i.severity)) =
         [("host-binding",
           if hasLocalhostBinding code then Severity.error else Severity.warning)]) ∧
    (∀ code file fw, hasCorrectBinding code = true →
       scanFileForHostIssues code file fw = []) ∧
    (∀ p fw, fw.name ≠ FrameworkName.nextjs → (checkHostBinding p fw).issues = [] →
       (checkHostBinding p fw).passed = [hostCheckPass]) := by
  refine ⟨?_, ?_, ?_⟩
  · intro code file fw h1 h2
    unfold scanFileForHostIssues
    simp only [h1, h2, Bool.true_or, Bool.not_false, Bool.and_self, if_true]
    by_cases hl : hasLocalhostBinding code <;> simp [hl]
  · intro code file fw h
    unfold scanFileForHostIssues
    simp [h]
  · intro p fw _ h
    show (if (checkHostBinding p fw).issues.isEmpty then [hostCheckPass] else []) =
      [hostCheckPass]
    rw [h]
    rfl

/-- Witness for the amended C5: error severity on a localhost binding, no
issue on a `0.0.0.0` binding, and the pass on an issue-free non-Next.js
project. -/
theorem scanFileForHostIssues_spec_witness :
    (scanFileForHostIssues "app.listen(port, \x27localhost\x27)" "server.js"
        { name := FrameworkName.express }).map (fun i => (i.id, i.severity)) =
      [("host-binding", Severity.error)] ∧
    scanFileForHostIssues "app.listen(port, \x270.0.0.0\x27)" "server.js"
        { name := FrameworkName.express } = [] ∧
    (checkHostBinding emptyProject { name := FrameworkName.express }).passed =
      [hostCheckPass] := by
  refine ⟨?_, ?_, ?_⟩
  · have h := scanFileForHostIssues_spec.1 "app.listen(port, \x27localhost\x27)" "server.js"
      { name := FrameworkName.express } rfl rfl
    rw [h]
    rfl
  · exact scanFileForHostIssues_spec.2.1 "app.listen(port, \x270.0.0.0\x27)" "server.js"
      { name := FrameworkName.express } rfl
  · exact scanFileForHostIssues_spec.2.2 emptyProject { name := FrameworkName.express }
      (by simp) rfl

/-- C6: in the database connection-string scan (run only when database
libraries were detected, i.e. `libs ≠ []`), the issue list is exactly: a
`database-localhost` error when a localhost hit was found and no
DATABASE_URL reference exists among the scanned files (a DATABASE_URL
reference suppresses it), an unconditional `database-socket` error on any
Unix-socket path reference, and the `database-url-recommended`
informational issue exactly when neither a localhost hit nor a DATABASE_URL
reference was found. -/
theorem findDatabaseConnectionIssues_policy (p : Project) (fw : Framework)
    (libs : List String) (hlibs : libs ≠ []) :
    (findDatabaseConnectionIssues p fw libs).map (fun i => (i.id, i.severity)) =
      ((if (dbScanFlags p fw).hasLocalhost && !(dbScanFlags p fw).hasDatabaseUrl then
          [("database-localhost", Severity.error)] else []) ++
       (if (dbScanFlags p fw).hasSocketConnection then
          [("database-socket", Severity.error)] else []) ++
       (if !(dbScanFlags p fw).hasDatabaseUrl && !(dbScanFlags p fw).hasLocalhost then
          [("database-url-recommended", Severity.info)] else [])) := by
  have hlen : 0 < libs.length := List.length_pos.mpr hlibs
  unfold findDatabaseConnectionIssues
  cases h1 : (dbScanFlags p fw).hasLocalhost <;>
    cases h2 : (dbScanFlags p fw).hasDatabaseUrl <;>
    cases h3 : (dbScanFlags p fw).hasSocketConnection <;>
    simp [h1, h2, h3, hlen, databaseLocalhostIssue, databaseSocketIssue,
      databaseUrlRecommendedIssue]

/-- A project holding one source file with a localhost connection line and
no DATABASE_URL reference. -/
def dbLocalhostProject : Project :=
  { projectPath := "proj"
    jsGlobAll := ["db.js"]
    readFile := fun f =>
      if f = "proj/db.js" then some "client.connect(\x27localhost\x27)" else none }

/-- Witness for C6: the scan of `dbLocalhostProject` yields exactly the
`database-localhost` error. -/
theorem findDatabaseConnectionIssues_policy_witness :
    (findDatabaseConnectionIssues dbLocalhostProject { name := FrameworkName.express }
        ["PostgreSQL"]).map (fun i => (i.id, i.severity)) =
      [("database-localhost", Severity.error)] := by
  have h := findDatabaseConnectionIssues_policy dbLocalhostProject
    { name := FrameworkName.express } ["PostgreSQL"] (by decide)
  rw [h]
  decide

/-- The Django framework value used for direct check invocations. -/
def djangoFrameworkValue : Framework :=
  { name := FrameworkName.django }

/-- C7 counterexample: when no settings file can be located, `checkDjango`
emits its single `django-no-settings` issue at severity error, not warning
as the claim states. -/
theorem django_no_settings_counterexample :
    (checkDjango emptyProject djangoFrameworkValue).issues.map
        (fun i => (i.id, i.severity)) =
      [("django-no-settings", Severity.error)] ∧
    djangoNoSettingsIssue.severity ≠ Severity.warning :=
  ⟨rfl, by decide⟩

/-- C7 amended: when the Django check cannot locate a settings file, it
emits the single non-fatal `django-no-settings` issue at error severity
with generic remediation steps, and returns early with no further Django
checks performed (no other issue and no pass). -/
theorem checkDjango_no_settings (p : Project) (fw : Framework)
    (h : p.settingsGlob = []) :
    checkDjango p fw = { issues := [djangoNoSettingsIssue], passed := [] } := by
  unfold checkDjango findDjangoSettings
  rw [h]
  rfl

/-- Witness for the amended C7. -/
theorem checkDjango_no_settings_witness :
    emptyProject.settingsGlob = [] ∧
    checkDjango emptyProject djangoFrameworkValue =
      { issues := [djangoNoSettingsIssue], passed := [] } :=
  ⟨rfl, checkDjango_no_settings emptyProject djangoFrameworkValue rfl⟩

theorem envUsageIssues_id (p : Project) (fw : Framework) :
    ∀ i ∈ envUsageIssues p fw, i.id = "env-vars-needed" := by
  intro i hi
  simp only [envUsageIssues] at hi
  split at hi
  · split at hi
    · simp at hi
      rw [hi]
      rfl
    · simp at hi
  · simp at hi

theorem envUsageIssues_not_hygienic (p : Project) (fw : Framework) :
    ∀ i ∈ envUsageIssues p fw,
      ¬i.id = "env-file-not-ignored" ∧ ¬i.id = "env-file-ignored" ∧
      ¬i.id = "no-env-file" := by
  intro i hi
  rw [envUsageIssues_id p fw i hi]
  refine ⟨by decide, by decide, by decide⟩

/-- C8: the secrets-hygiene sub-scan of `checkEnvVars` — with both `.env`
and `.gitignore` present, an ignore file not mentioning `.env` yields the
`env-file-not-ignored` warning and one mentioning it yields the
`env-file-ignored` pass; with neither file the `no-env-file` pass is
emitted; with `.gitignore` but no `.env` the sub-scan emits neither an
issue nor a pass. -/
theorem checkEnvVars_hygiene (p : Project) (fw : Framework) :
    (∀ g, p.dotEnvExists = true → p.gitignore = some g → strContains g ".env" = true →
       (checkEnvVars p fw).issues.filter
         (fun i => ["env-file-not-ignored", "env-file-ignored", "no-env-file"].contains i.id)
           = [] ∧
       (checkEnvVars p fw).passed = [envFileIgnoredPass]) ∧
    (∀ g, p.dotEnvExists = true → p.gitignore = some g → strContains g ".env" = false →
       (checkEnvVars p fw).issues.filter
         (fun i => ["env-file-not-ignored", "env-file-ignored", "no-env-file"].contains i.id)
           = [envFileNotIgnoredIssue (pjoin p.projectPath ".gitignore")] ∧
       (checkEnvVars p fw).passed = []) ∧
    (p.dotEnvExists = false → p.gitignore = none →
       (checkEnvVars p fw).issues.filter
         (fun i => ["env-file-not-ignored", "env-file-ignored", "no-env-file"].contains i.id)
           = [] ∧
       (checkEnvVars p fw).passed = [noEnvFilePass]) ∧
    (∀ g, p.dotEnvExists = false → p.gitignore = some g →
       (checkEnvVars p fw).issues.filter
         (fun i => ["env-file-not-ignored", "env-file-ignored", "no-env-file"].contains i.id)
           = [] ∧
       (checkEnvVars p fw).passed = []) := by
  refine ⟨?_, ?_, ?_, ?_⟩
  · intro g hd hg hc
    unfold checkEnvVars
    rw [hd, hg]
    simp [hc]
    exact envUsageIssues_not_hygienic p fw
  · intro g hd hg hc
    unfold checkEnvVars
    rw [hd, hg]
    simp [hc, List.filter_append, envFileNotIgnoredIssue]
    exact envUsageIssues_not_hygienic p fw
  · intro hd hg
    unfold checkEnvVars
    rw [hd, hg]
    simp
    exact envUsageIssues_not_hygienic p fw
  · intro g hd hg
    unfold checkEnvVars
    rw [hd, hg]
    simp
    exact envUsageIssues_not_hygienic p fw

/-- A project with `.env` and a `.gitignore` that mentions it. -/
def envIgnoredProject : Project :=
  { projectPath := "proj", dotEnvExists := true, gitignore := some ".env\nnode_modules" }

/-- A project with `.env` and a `.gitignore` that does not mention it. -/
def envNotIgnoredProject : Project :=
  { projectPath := "proj", dotEnvExists := true, gitignore := some "node_modules" }

/-- A project with a `.gitignore` but no `.env`. -/
def gitignoreOnlyProject : Project :=
  { projectPath := "proj", gitignore := some "node_modules" }

/-- Witness for C8: all four hygiene cases at concrete projects. -/
theorem checkEnvVars_hygiene_witness :
    (checkEnvVars envIgnoredProject { name := FrameworkName.unknown }).passed =
      [envFileIgnoredPass] ∧
    (checkEnvVars envNotIgnoredProject { name := FrameworkName.unknown }).issues.filter
      (fun i => ["env-file-not-ignored", "env-file-ignored", "no-env-file"].contains i.id) =
      [envFileNotIgnoredIssue "proj/.gitignore"] ∧
    (checkEnvVars emptyProject { name := FrameworkName.unknown }).passed = [noEnvFilePass] ∧
    (checkEnvVars gitignoreOnlyProject { name := FrameworkName.unknown }).passed = [] :=
  ⟨((checkEnvVars_hygiene envIgnoredProject { name := FrameworkName.unknown }).1
      ".env\nnode_modules" rfl rfl rfl).2,
   ((checkEnvVars_hygiene envNotIgnoredProject { name := FrameworkName.unknown }).2.1
      "node_modules" rfl rfl rfl).1,
   ((checkEnvVars_hygiene emptyProject { name := FrameworkName.unknown }).2.2.1
      rfl rfl).2,
   ((checkEnvVars_hygiene gitignoreOnlyProject { name := FrameworkName.unknown }).2.2.2
      "node_modules" rfl rfl).2⟩

/-- C9: `scanProject` is deterministic — it is a pure function of the
project's file-system oracle (the embedding exposes every input the source
reads; the source consults no clock, randomness or other hidden state), so
two scans of identical on-disk content produce identical `ScanResult`
values and hence byte-identical JSON output. -/
theorem scanProject_deterministic (p q : Project) (h : p = q) :
    scanProject p = scanProject q := by
  rw [h]

/-- Witness for C9. -/
theorem scanProject_deterministic_witness :
    scanProject emptyProject = scanProject emptyProject :=
  scanProject_deterministic emptyProject emptyProject rfl

/-- C10: for every scan whose detected framework is the `unknown` variant,
`checkStartCommand` returns no issues (neither the Node family nor the
Python family branch applies), so the orchestrator emits the
`start-command-check` pass — even for a project with no manifest, no start
script and no Procfile. -/
theorem scanProject_unknown_start_pass (p : Project) (r : ScanResult)
    (h : scanProject p = Except.ok r)
    (hu : r.framework.name = FrameworkName.unknown) :
    checkStartCommand p r.framework = [] ∧ startCommandPass ∈ r.passed := by
  obtain ⟨fw, -, rfl⟩ := scanProject_ok p r h
  rw [scanResultFor_framework] at hu ⊢
  have hempty := checkStartCommand_unknown_nil p fw hu
  refine ⟨hempty, ?_⟩
  simp [scanResultFor, hempty]

/-- Witness for C10: the empty project (no manifest, no start script, no
Procfile) detects as `unknown` and still gets the start-command pass. -/
theorem scanProject_unknown_start_pass_witness :
    checkStartCommand emptyProject emptyScanResult.framework = [] ∧
    startCommandPass ∈ emptyScanResult.passed :=
  scanProject_unknown_start_pass emptyProject emptyScanResult
    scanProject_emptyProject rfl

end RailwayDoctor
